import Mathlib

/-!
Verification of the netflix-streaming-pipeline event-processing core.

This file gives a shallow embedding, in Lean 4, of:

* the validator `_validate_event`, the enricher `_enrich_event`, the
  dead-letter sender `_send_to_dlq` and the batch entry point `main`
  from `functions/process_events/__init__.py`;
* the synthetic event generator `NetflixEventGenerator._generate_event`
  and its user pool `_build_user_pool` from `data_generator/generator.py`,
  together with the `StreamingEvent` dataclass of `data_generator/models.py`.

Modelling conventions:

* A decoded JSON document is a `Payload`: an association list from keys to
  `JVal` values (Python `dict` preserves insertion order; an update of an
  existing key keeps its position, a new key is appended — `pset` mirrors
  this).  `JVal` covers the JSON scalars plus arrays and objects.
* Python exceptions that the source code does not catch are made explicit:
  functions that can raise return `Except String α`, where the `String`
  names the escaping Python exception.
* External collaborators (the UTF-8 decoder on the Event Hub body, the JSON
  parser, the Cosmos upsert, the dead-letter producer) are modelled as
  oracles carried by each batch item: only their success/failure and the
  produced value matter to the control flow under verification.
* Randomness in the generator is modelled by passing the resolved draws
  (`random.choice` indices, `random.uniform` values, generated UUID
  strings) as explicit parameters; theorems quantify over all draws that
  the Python random primitives can produce.
* Python floats are modelled as rationals (`ℚ`); `round(x, n)` is Python's
  round-half-to-even, modelled exactly on `ℚ`.
-/

/-- JSON-like values as produced by `json.loads`.  Numbers are modelled as
rationals (covering both Python ints and floats). -/
inductive JVal where
  | str (s : String)
  | num (q : ℚ)
  | boolean (b : Bool)
  | null
  | arr (xs : List JVal)
  | obj (kvs : List (String × JVal))

/-- A decoded JSON object: association list, first occurrence of a key wins
(mirroring a Python `dict`, whose keys are unique). -/
abbrev Payload := List (String × JVal)

/-- Lookup a key, as Python `event.get(k)` / `event[k]` (the latter raising
`KeyError` exactly when this returns `none`). -/
def pget (e : Payload) (k : String) : Option JVal :=
  (e.find? (fun p => p.1 == k)).map (fun p => p.2)

/-- Assignment `event[k] = v` on a Python dict: replaces the value in place
if the key exists (keeping its position), otherwise appends the key. -/
def pset (e : Payload) (k : String) (v : JVal) : Payload :=
  match e with
  | [] => [(k, v)]
  | (k', v') :: rest =>
      if k' == k then (k', v) :: rest else (k', v') :: pset rest k v

/-- Python truthiness of a JSON value (`bool(v)`), as used by
`if not event.get(field)` and `if event.get("event_type") and ...`. -/
def jtruthy : JVal → Bool
  | .str s => !(s == "")
  | .num q => !(q == 0)
  | .boolean b => b
  | .null => false
  | .arr xs => !xs.isEmpty
  | .obj kvs => !kvs.isEmpty

/-- Membership of a JSON value in a set of strings, as Python `v in S` for a
set `S` of `str`: only equal strings are members. -/
def jvalIsIn (v : JVal) (valid : List String) : Bool :=
  match v with
  | .str s => valid.contains s
  | _ => false

/-- Rendering of a JSON value inside an f-string, as in
`f"invalid event_type: {event['event_type']}"`.  Faithful for the values the
validator can actually interpolate when the message matters (strings render
as themselves; integers, booleans and `None` as in Python).  The rendering
of non-integer numbers, arrays and objects is an approximation: the spec
never pins down those renderings. -/
def jvalShow : JVal → String
  | .str s => s
  | .num q => if q.den == 1 then toString q.num else toString q
  | .boolean b => if b then "True" else "False"
  | .null => "None"
  | .arr _ => "[...]"
  | .obj _ => "\x7b...\x7d"

/-- The closed event-type enumeration `VALID_EVENT_TYPES` of
`process_events/__init__.py` (a Python set; only membership is used). -/
def VALID_EVENT_TYPES : List String :=
  ["video_start", "video_pause", "video_stop", "video_complete", "buffer_event"]

/-- The closed device-type enumeration `VALID_DEVICE_TYPES`. -/
def VALID_DEVICE_TYPES : List String :=
  ["smart_tv", "mobile", "tablet", "desktop", "game_console", "streaming_stick"]

/-- The tuple of required fields, in the order the validator iterates it. -/
def REQUIRED_FIELDS : List String :=
  ["event_id", "event_type", "user_id", "content_id", "timestamp"]

/-- Truthiness of `event.get(k)`: `false` when the key is absent (Python
`None`) and otherwise the truthiness of the stored value. -/
def truthyGet (e : Payload) (k : String) : Bool :=
  match pget e k with
  | some v => jtruthy v
  | none => false

/-- The enum check `if event.get(k) and event[k] not in valid: [message]`
shared by the event-type and device-type branches of the validator. -/
def enumErrs (e : Payload) (k : String) (valid : List String) (msg : String) :
    List String :=
  match pget e k with
  | some v => if jtruthy v && !(jvalIsIn v valid) then [msg ++ jvalShow v] else []
  | none => []

/-- The violation list `_validate_event` accumulates when it completes:
required-field checks in tuple order, then the event-type check, then the
device-type check, errors appended in that order. -/
def validate_violations (event : Payload) : List String :=
  let errors := REQUIRED_FIELDS.filterMap (fun f =>
    if truthyGet event f then none else some ("missing required field: " ++ f))
  let errors := errors ++ enumErrs event "event_type" VALID_EVENT_TYPES "invalid event_type: "
  let errors := errors ++ enumErrs event "device_type" VALID_DEVICE_TYPES "invalid device_type: "
  errors

/-- Whether the membership test `event[k] not in valid` raises: Python set
membership hashes the value, and a list or dict is unhashable, so a truthy
array/object value raises `TypeError` (falsy values never reach the test
because of the short-circuiting `event.get(k) and ...`). -/
def enumRaises (e : Payload) (k : String) : Bool :=
  match pget e k with
  | some (.arr xs) => jtruthy (.arr xs)
  | some (.obj kvs) => jtruthy (.obj kvs)
  | _ => false

/-- Translation of `_validate_event` (process_events/__init__.py, lines
67-80).  The missing-field loop cannot raise; the event-type membership
test runs first and the device-type test second, so a truthy
array/object value in either field raises an uncaught `TypeError`
(discarding the violations accumulated so far); otherwise the function
returns the violation list. -/
def validate_event (event : Payload) : Except String (List String) :=
  if enumRaises event "event_type" then .error "TypeError"
  else if enumRaises event "device_type" then .error "TypeError"
  else .ok (validate_violations event)

/-- Decidable equality on `Except`, used to evaluate the model at concrete
inputs. -/
instance {e a : Type} [DecidableEq e] [DecidableEq a] : DecidableEq (Except e a) :=
  fun x y =>
    match x, y with
    | .error u, .error v =>
        match decEq u v with
        | isTrue h => isTrue (by rw [h])
        | isFalse h => isFalse (fun hh => by cases hh; exact h rfl)
    | .ok u, .ok v =>
        match decEq u v with
        | isTrue h => isTrue (by rw [h])
        | isFalse h => isFalse (fun hh => by cases hh; exact h rfl)
    | .error _, .ok _ => isFalse (fun hh => by cases hh)
    | .ok _, .error _ => isFalse (fun hh => by cases hh)

theorem validate_event_eq_ok (e : Payload)
    (h1 : enumRaises e "event_type" = false)
    (h2 : enumRaises e "device_type" = false) :
    validate_event e = .ok (validate_violations e) := by
  unfold validate_event
  rw [h1, h2]
  rfl

theorem enumRaises_of_pget_str (e : Payload) (k : String) (s : String)
    (h : pget e k = some (.str s)) : enumRaises e k = false := by
  unfold enumRaises
  rw [h]

example :
    validate_violations
      [("event_id", .str "e1"), ("event_type", .str "video_start"),
       ("user_id", .str "U0000001"), ("content_id", .str "NF001"),
       ("timestamp", .str "2025-01-15T14:30:00Z"), ("device_type", .str "smart_tv")] = [] := by
  decide

example :
    validate_violations [("event_type", .str "video_start")] =
      ["missing required field: event_id", "missing required field: user_id",
       "missing required field: content_id", "missing required field: timestamp"] := by
  decide

example :
    validate_violations
      [("event_id", .str "e1"), ("event_type", .str "video_explode"),
       ("user_id", .str "U0000001"), ("content_id", .str "NF001"),
       ("timestamp", .str "2025-01-15T14:30:00Z"), ("device_type", .str "smart_tv")] =
      ["invalid event_type: video_explode"] := by
  decide

/-- Replacement of every non-overlapping occurrence of a nonempty pattern,
scanning left to right, as Python `str.replace`.  The first argument is
fuel (instantiated with the string length, always sufficient), making the
recursion structural and hence kernel-reducible. -/
def replaceChars (old new : List Char) : Nat → List Char → List Char
  | _, [] => []
  | 0, s => s
  | fuel + 1, c :: rest =>
      if !old.isEmpty && old.isPrefixOf (c :: rest) then
        new ++ replaceChars old new fuel (rest.drop (old.length - 1))
      else
        c :: replaceChars old new fuel rest

/-- Python `s.replace(old, new)` for a nonempty pattern `old` (the enricher
only uses the pattern `"Z"`). -/
def pyReplace (s old new : String) : String :=
  String.mk (replaceChars old.data new.data s.data.length s.data)

example : pyReplace "2025-01-15T14:30:00Z" "Z" "+00:00" = "2025-01-15T14:30:00+00:00" := rfl

/-- Result of a successful `datetime.fromisoformat`: the fields the
enricher's `strftime("%Y-%m-%dT%H:00:00Z")` can observe (the parsed minute,
second, fraction and offset are validated by the parser but do not affect
the formatted hour bucket — `fromisoformat` performs no timezone
conversion). -/
structure PyDateTime where
  year : Nat
  month : Nat
  day : Nat
  hour : Nat
deriving Repr, DecidableEq

/-- Numeric value of a decimal digit character. -/
def digitVal (c : Char) : Nat := c.toNat - '0'.toNat

/-- Parse exactly two decimal digits. -/
def digits2 : List Char → Option (Nat × List Char)
  | a :: b :: rest =>
      if a.isDigit && b.isDigit then some (10 * digitVal a + digitVal b, rest) else none
  | _ => none

/-- Parse exactly four decimal digits. -/
def digits4 : List Char → Option (Nat × List Char)
  | a :: b :: c :: d :: rest =>
      if a.isDigit && b.isDigit && c.isDigit && d.isDigit then
        some (1000 * digitVal a + 100 * digitVal b + 10 * digitVal c + digitVal d, rest)
      else none
  | _ => none

/-- Consume one expected character. -/
def expectChar (c : Char) : List Char → Option (List Char)
  | d :: rest => if d == c then some rest else none
  | [] => none

/-- Gregorian leap-year rule, as `calendar.isleap`. -/
def isLeapYear (y : Nat) : Bool :=
  y % 4 == 0 && (y % 100 != 0 || y % 400 == 0)

/-- Days in a month, as `calendar.monthrange` / the `datetime` constructor. -/
def daysInMonth (y m : Nat) : Nat :=
  if m == 2 then (if isLeapYear y then 29 else 28)
  else if m == 4 || m == 6 || m == 9 || m == 11 then 30
  else 31

/-- Parse the `YYYY-MM-DD` date prefix of an ISO string. -/
def parseDate (s : List Char) : Option (Nat × Nat × Nat × List Char) := do
  let (y, s) ← digits4 s
  let s ← expectChar '-' s
  let (mo, s) ← digits2 s
  let s ← expectChar '-' s
  let (d, s) ← digits2 s
  some (y, mo, d, s)

/-- Parse `HH[:MM[:SS[.fff[fff]]]]` (fraction of exactly three or six
digits, as in the pre-3.11 `fromisoformat` grammar). -/
def parseFrac : List Char → Option (List Char)
  | '.' :: rest =>
      let frac := rest.takeWhile Char.isDigit
      if frac.length == 3 || frac.length == 6 then some (rest.drop frac.length)
      else none
  | rest => some rest

def parseSec (h m : Nat) : List Char → Option (Nat × Nat × Nat × List Char)
  | ':' :: rest =>
      match digits2 rest with
      | none => none
      | some (sec, rest2) => (parseFrac rest2).map (fun r => (h, m, sec, r))
  | rest => some (h, m, 0, rest)

def parseMin (h : Nat) : List Char → Option (Nat × Nat × Nat × List Char)
  | ':' :: rest =>
      match digits2 rest with
      | none => none
      | some (m, rest2) => parseSec h m rest2
  | rest => some (h, 0, 0, rest)

def parseHms (s : List Char) : Option (Nat × Nat × Nat × List Char) := do
  let (h, s) ← digits2 s
  parseMin h s

/-- Parse a `±HH:MM[:SS[.ffffff]]` timezone suffix, returning the absolute
offset in seconds; must consume the whole remainder. -/
def parseTzSuffix (s : List Char) : Option Nat := do
  let (h, m, sec, rest) ← parseHms s
  match rest with
  | [] => if m ≤ 59 ∧ sec ≤ 59 then some (h * 3600 + m * 60 + sec) else none
  | _ => none

/-- Translation of `datetime.fromisoformat` applied to a character list:
`YYYY-MM-DD`, optionally a single separator character and a time
`HH[:MM[:SS[.fff[fff]]]]`, optionally a `±HH:MM[:SS[.ffffff]]` offset; all
components range-checked as in the `datetime`/`timezone` constructors
(year 1-9999, valid calendar date, hour below 24, offset strictly below 24
hours). -/
def fromisoformatChars (s : List Char) : Option PyDateTime := do
  let (y, mo, d, rest) ← parseDate s
  let (h, mi, sec, tzRest) ←
    match rest with
    | [] => some (0, 0, 0, ([] : List Char))
    | _ :: timePart => parseHms timePart
  let tzOk ←
    match tzRest with
    | [] => some true
    | '+' :: tz => (parseTzSuffix tz).map (fun off => decide (off < 24 * 3600))
    | '-' :: tz => (parseTzSuffix tz).map (fun off => decide (off < 24 * 3600))
    | _ => none
  if 1 ≤ y ∧ y ≤ 9999 ∧ 1 ≤ mo ∧ mo ≤ 12 ∧ 1 ≤ d ∧ d ≤ daysInMonth y mo
      ∧ h ≤ 23 ∧ mi ≤ 59 ∧ sec ≤ 59 ∧ tzOk = true then
    some ⟨y, mo, d, h⟩
  else none

/-- Python `datetime.fromisoformat` on a string. -/
def fromisoformat (s : String) : Option PyDateTime :=
  fromisoformatChars s.data

example : fromisoformat "2025-01-15T14:30:00+00:00" = some ⟨2025, 1, 15, 14⟩ := rfl
example : fromisoformat "not-a-timestamp" = none := rfl
example : fromisoformat "2025-13-02T01:00:00" = none := rfl
example : fromisoformat "2025-02-29" = none := rfl
example : fromisoformat "2024-02-29" = some ⟨2024, 2, 29, 0⟩ := rfl

/-- Decimal rendering of a natural number zero-padded to a given width, as
`strftime`'s `%Y`/`%m`/`%d`/`%H` directives. -/
def padNum (w n : Nat) : String :=
  let s := toString n
  String.mk (List.replicate (w - s.length) '0') ++ s

/-- The hour bucket `ts.strftime("%Y-%m-%dT%H:00:00Z")`: the parsed
timestamp floored to the hour. -/
def hourBucketFmt (dt : PyDateTime) : String :=
  padNum 4 dt.year ++ "-" ++ padNum 2 dt.month ++ "-" ++ padNum 2 dt.day ++
    "T" ++ padNum 2 dt.hour ++ ":00:00Z"

/-- The constant `processing_version` tag. -/
def PROCESSING_VERSION : String := "1.0.0"

/-- Translation of `_enrich_event` (process_events/__init__.py, lines
85-98).  `freshId` is the `str(uuid.uuid4())` draw and `now` the
`datetime.now(timezone.utc).isoformat()` draw, passed explicitly.  The
`try` block catches only `ValueError` (parse failure) and `KeyError`
(absent key): when the stored timestamp is a non-string value, the
attribute access `event["timestamp"].replace` raises an `AttributeError`
that escapes, modelled by the `Except.error` branch. -/
def enrich_event (freshId now : String) (event : Payload) : Except String Payload :=
  let idVal := (pget event "event_id").getD (.str freshId)
  let e1 := pset event "id" idVal
  let e2 := pset e1 "processed_at" (.str now)
  let e3 := pset e2 "processing_version" (.str PROCESSING_VERSION)
  match pget e3 "timestamp" with
  | none => .ok (pset e3 "hour_bucket" .null)
  | some (.str s) =>
      match fromisoformat (pyReplace s "Z" "+00:00") with
      | some dt => .ok (pset e3 "hour_bucket" (.str (hourBucketFmt dt)))
      | none => .ok (pset e3 "hour_bucket" .null)
  | some _ => .error "AttributeError"

example :
    enrich_event "fresh" "2025-02-01T00:00:00+00:00"
      [("event_id", .str "abc-123"), ("timestamp", .str "2025-01-15T14:30:00Z")] =
    .ok [("event_id", .str "abc-123"), ("timestamp", .str "2025-01-15T14:30:00Z"),
         ("id", .str "abc-123"), ("processed_at", .str "2025-02-01T00:00:00+00:00"),
         ("processing_version", .str "1.0.0"), ("hour_bucket", .str "2025-01-15T14:00:00Z")] := rfl

example :
    enrich_event "fresh" "2025-02-01T00:00:00+00:00"
      [("event_id", .str "abc-123"), ("timestamp", .str "not-a-timestamp")] =
    .ok [("event_id", .str "abc-123"), ("timestamp", .str "not-a-timestamp"),
         ("id", .str "abc-123"), ("processed_at", .str "2025-02-01T00:00:00+00:00"),
         ("processing_version", .str "1.0.0"), ("hour_bucket", .null)] := rfl

example :
    enrich_event "fresh" "2025-02-01T00:00:00+00:00"
      [("event_id", .str "abc-123"), ("timestamp", .num 1)] = .error "AttributeError" := rfl

/-- The dead-letter envelope `json.dumps({...})` built by `_send_to_dlq`:
`original_event` is the raw body truncated to its first 8192 characters
(`raw_body[:8192]`), `validation_errors` the itemised reasons,
`rejected_at` the `datetime.now(timezone.utc).isoformat()` draw.  The raw
body is modelled as its character list. -/
structure DlqEnvelope where
  original_event : List Char
  validation_errors : List String
  rejected_at : String
deriving DecidableEq

/-- Observable outcome of one `_send_to_dlq` call. -/
inductive SendOutcome where
  | dropped
  | sent (env : DlqEnvelope)
  | sendFailed
deriving DecidableEq

/-- The dead-letter hub's `create_batch`/`add`/`send_batch` sequence,
an external collaborator that may raise; `sinkOk` is the oracle for its
success on this call. -/
def sinkSend (sinkOk : Bool) (env : DlqEnvelope) : Except String DlqEnvelope :=
  if sinkOk then .ok env else .error "EventHubError"

/-- Translation of `_send_to_dlq` (process_events/__init__.py, lines
103-119).  `producerConfigured` models whether `_get_dlq_producer()`
returned a producer (a connection string was configured); `now` is the
`rejected_at` timestamp draw.  The whole send attempt sits in a
`try/except Exception` block whose handler only logs, so a sink failure is
swallowed; the function itself never raises, which the `Except` result
type makes into a provable statement rather than an assumption. -/
def send_to_dlq (producerConfigured sinkOk : Bool) (raw_body : List Char)
    (errors : List String) (now : String) : Except String SendOutcome :=
  if producerConfigured = false then
    .ok .dropped
  else
    match sinkSend sinkOk
        { original_event := raw_body.take 8192
          validation_errors := errors
          rejected_at := now } with
    | .ok env => .ok (.sent env)
    | .error _ => .ok .sendFailed

/-- One raw item of an Event Hub batch, together with the resolved outcomes
of the external collaborators that `main` consults for it:

* `utf8`  — result of `event.get_body().decode("utf-8")`; `none` models a
  `UnicodeDecodeError` (the body bytes are not valid UTF-8);
* `json`  — result of `json.loads(raw_body)`; `none` models a
  `json.JSONDecodeError`;
* `upsertOk` — whether `container.upsert_item(body=enriched)` succeeds
  (both `CosmosHttpResponseError` and any other exception are handled
  identically by the source, so one flag suffices);
* `sinkOk`  — whether the dead-letter send succeeds, if attempted;
* `freshId` — the `str(uuid.uuid4())` draw used by `_enrich_event`;
* `now`     — the `datetime.now(timezone.utc).isoformat()` draw. -/
structure RawItem where
  utf8 : Option (List Char)
  json : Option Payload
  upsertOk : Bool
  sinkOk : Bool
  freshId : String
  now : String

/-- The observable outcome of a completed batch: the two counters reported
by the final log line, plus the outcomes of the dead-letter sends in batch
order. -/
structure BatchOutcome where
  success_count : Nat
  error_count : Nat
  dlq_sends : List SendOutcome
deriving DecidableEq

/-- The outcome of an empty batch. -/
def emptyOutcome : BatchOutcome := ⟨0, 0, []⟩

/-- Accumulation of two batch segments' outcomes. -/
def combineOutcome (a b : BatchOutcome) : BatchOutcome :=
  ⟨a.success_count + b.success_count, a.error_count + b.error_count,
   a.dlq_sends ++ b.dlq_sends⟩

/-- One iteration of the `for event in events` loop of `main`
(process_events/__init__.py, lines 132-162): UTF-8 decode (uncaught on
failure), JSON decode (dead-letter + error count on failure), validation
(dead-letter + error count on a non-empty violation list; an uncaught
`TypeError` on unhashable enum values), enrichment (uncaught on failure),
upsert (success count on success, error count on either exception). -/
def process_item (producerConfigured : Bool) (it : RawItem) :
    Except String BatchOutcome :=
  match it.utf8 with
  | none => .error "UnicodeDecodeError"
  | some raw_body =>
      match it.json with
      | none =>
          match send_to_dlq producerConfigured it.sinkOk raw_body ["invalid JSON"] it.now with
          | .ok o => .ok ⟨0, 1, [o]⟩
          | .error e => .error e
      | some data =>
          match validate_event data with
          | .error e => .error e
          | .ok validation_errors =>
              if validation_errors.isEmpty = false then
                match send_to_dlq producerConfigured it.sinkOk raw_body validation_errors it.now with
                | .ok o => .ok ⟨0, 1, [o]⟩
                | .error e => .error e
              else
                match enrich_event it.freshId it.now data with
                | .error e => .error e
                | .ok _enriched => if it.upsertOk then .ok ⟨1, 0, []⟩ else .ok ⟨0, 1, []⟩

/-- Translation of `main` (process_events/__init__.py, lines 124-167): the
batch loop with its per-item isolation.  An uncaught per-item exception
(`Except.error`) aborts the whole invocation: the items already processed
are lost and no batch summary is reported. -/
def main (producerConfigured : Bool) : List RawItem → Except String BatchOutcome
  | [] => .ok emptyOutcome
  | it :: rest =>
      match process_item producerConfigured it with
      | .error e => .error e
      | .ok o1 =>
          match main producerConfigured rest with
          | .error e => .error e
          | .ok o2 => .ok (combineOutcome o1 o2)

/-- The static content catalog `CONTENT_CATALOG` of
`data_generator/generator.py` (lines 34-55). -/
structure ContentItem where
  id : String
  title : String
  ctype : String
  duration : ℚ

def CONTENT_CATALOG : List ContentItem :=
  [⟨"NF001", "Stranger Things S4", "tv_episode", 4500⟩,
   ⟨"NF002", "Wednesday S1", "tv_episode", 2700⟩,
   ⟨"NF003", "Glass Onion", "movie", 8400⟩,
   ⟨"NF004", "All Quiet on the Western Front", "movie", 8880⟩,
   ⟨"NF005", "The Crown S5", "tv_episode", 3600⟩,
   ⟨"NF006", "Dahmer", "tv_episode", 3000⟩,
   ⟨"NF007", "Our Planet II", "documentary", 3000⟩,
   ⟨"NF008", "Squid Game S1", "tv_episode", 3300⟩,
   ⟨"NF009", "The Witcher S3", "tv_episode", 3600⟩,
   ⟨"NF010", "Heart of Stone", "movie", 7500⟩,
   ⟨"NF011", "Dave Chappelle: The Closer", "special", 4200⟩,
   ⟨"NF012", "Extraction 2", "movie", 7200⟩,
   ⟨"NF013", "Black Mirror S6", "tv_episode", 4200⟩,
   ⟨"NF014", "The Diplomat S1", "tv_episode", 2700⟩,
   ⟨"NF015", "You S4", "tv_episode", 3000⟩,
   ⟨"NF016", "Behind the Curve", "documentary", 5700⟩,
   ⟨"NF017", "Rebel Moon", "movie", 8100⟩,
   ⟨"NF018", "One Piece S1", "tv_episode", 3300⟩,
   ⟨"NF019", "The Night Agent S1", "tv_episode", 2700⟩,
   ⟨"NF020", "Luther: The Fallen Sun", "movie", 7800⟩]

/-- The fixed location table `LOCATIONS` (generator.py, lines 57-73), each
entry modelled as the JSON object it is serialised to. -/
def LOCATIONS : List (List (String × JVal)) :=
  [[("country", .str "US"), ("region", .str "California"), ("city", .str "Los Angeles"), ("lat", .num 34.05), ("lon", .num (-118.24))],
   [("country", .str "US"), ("region", .str "New York"), ("city", .str "New York"), ("lat", .num 40.71), ("lon", .num (-74.00))],
   [("country", .str "US"), ("region", .str "Texas"), ("city", .str "Houston"), ("lat", .num 29.76), ("lon", .num (-95.36))],
   [("country", .str "US"), ("region", .str "Illinois"), ("city", .str "Chicago"), ("lat", .num 41.88), ("lon", .num (-87.63))],
   [("country", .str "UK"), ("region", .str "England"), ("city", .str "London"), ("lat", .num 51.51), ("lon", .num (-0.13))],
   [("country", .str "DE"), ("region", .str "Bavaria"), ("city", .str "Munich"), ("lat", .num 48.14), ("lon", .num 11.58)],
   [("country", .str "JP"), ("region", .str "Kanto"), ("city", .str "Tokyo"), ("lat", .num 35.68), ("lon", .num 139.69)],
   [("country", .str "BR"), ("region", .str "Sao Paulo"), ("city", .str "Sao Paulo"), ("lat", .num (-23.55)), ("lon", .num (-46.63))],
   [("country", .str "IN"), ("region", .str "Maharashtra"), ("city", .str "Mumbai"), ("lat", .num 19.08), ("lon", .num 72.88)],
   [("country", .str "AU"), ("region", .str "NSW"), ("city", .str "Sydney"), ("lat", .num (-33.87)), ("lon", .num 151.21)],
   [("country", .str "CA"), ("region", .str "Ontario"), ("city", .str "Toronto"), ("lat", .num 43.65), ("lon", .num (-79.38))],
   [("country", .str "FR"), ("region", .str "Ile-de-France"), ("city", .str "Paris"), ("lat", .num 48.86), ("lon", .num 2.35)],
   [("country", .str "KR"), ("region", .str "Seoul"), ("city", .str "Seoul"), ("lat", .num 37.57), ("lon", .num 126.98)],
   [("country", .str "MX"), ("region", .str "CDMX"), ("city", .str "Mexico City"), ("lat", .num 19.43), ("lon", .num (-99.13))],
   [("country", .str "ES"), ("region", .str "Madrid"), ("city", .str "Madrid"), ("lat", .num 40.42), ("lon", .num (-3.70))]]

/-- The tier list `SUBSCRIPTION_TIERS` (weighted 0.20/0.50/0.30 in
`_build_user_pool`; the weights only shape the distribution, membership is
what the claims consume). -/
def SUBSCRIPTION_TIERS : List String := ["basic", "standard", "premium"]

/-- The quality table `QUALITY_MAP` (generator.py, lines 77-81). -/
def QUALITY_MAP : List (String × List (String × Int)) :=
  [("basic", [("480p", 2500)]),
   ("standard", [("720p", 5000), ("1080p", 8000)]),
   ("premium", [("1080p", 8000), ("4K", 16000), ("4K_HDR", 20000)])]

/-- Dictionary lookup `QUALITY_MAP[tier]`; the `[]` default totalises the
`KeyError` branch, which is unreachable because every tier the generator
draws is a key of the map. -/
def qualityMapGet (tier : String) : List (String × Int) :=
  ((QUALITY_MAP.find? (fun p => p.1 == tier)).map (fun p => p.2)).getD []

/-- `DEVICE_WEIGHTS` (generator.py, lines 83-90): insertion-ordered keys
with their sampling weights.  `random.choices` over this population can
return any key (all weights are positive); theorems therefore quantify
over an arbitrary in-range index. -/
def DEVICE_WEIGHTS : List (String × ℚ) :=
  [("smart_tv", 0.35), ("mobile", 0.28), ("tablet", 0.10),
   ("desktop", 0.12), ("game_console", 0.08), ("streaming_stick", 0.07)]

/-- `EVENT_WEIGHTS` (generator.py, lines 94-100). -/
def EVENT_WEIGHTS : List (String × ℚ) :=
  [("video_start", 0.30), ("video_pause", 0.15), ("video_stop", 0.20),
   ("video_complete", 0.25), ("buffer_event", 0.10)]

/-- The population `list(DEVICE_WEIGHTS.keys())`. -/
def DEVICE_KEYS : List String := DEVICE_WEIGHTS.map (fun p => p.1)

/-- The population `list(EVENT_WEIGHTS.keys())`. -/
def EVENT_KEYS : List String := EVENT_WEIGHTS.map (fun p => p.1)

/-- A member of the generator's synthetic user pool. -/
structure User where
  user_id : String
  profile_id : String
  device_type : String
  device_id : String
  location : List (String × JVal)
  subscription_tier : String

/-- The `random` draws consumed for one user of `_build_user_pool`
(generator.py, lines 133-151): the weighted tier choice, the
`randint(1, 5)` profile suffix, the weighted device choice, the device
UUID and the uniform location choice, all resolved to their outcomes. -/
structure UserDraws where
  tierIdx : Nat
  profileSuffix : Nat
  deviceIdx : Nat
  deviceUuid : String
  locIdx : Nat

/-- Fallback user for the `getD` totalisation of `random.choice` (dead code
whenever the index is in range, which `random.choice` guarantees). -/
def defaultUser : User := ⟨"", "", "", "", [], ""⟩

/-- Fallback content item, dead code as for `defaultUser`. -/
def defaultContent : ContentItem := ⟨"", "", "", 0⟩

/-- One iteration of the `_build_user_pool` loop at index `i`:
`user_id = f"U{i:07d}"`, `profile_id = f"P{i:07d}_{randint(1,5)}"`, sticky
device type, device UUID, location and tier. -/
def build_user (i : Nat) (d : UserDraws) : User :=
  { user_id := "U" ++ padNum 7 i
    profile_id := "P" ++ padNum 7 i ++ "_" ++ toString d.profileSuffix
    device_type := DEVICE_KEYS.getD d.deviceIdx ""
    device_id := d.deviceUuid
    location := LOCATIONS.getD d.locIdx []
    subscription_tier := SUBSCRIPTION_TIERS.getD d.tierIdx "" }

/-- Translation of `_build_user_pool`: one user per draw record, indexed
from zero in order. -/
def build_user_pool_from (i : Nat) : List UserDraws → List User
  | [] => []
  | d :: rest => build_user i d :: build_user_pool_from (i + 1) rest

def build_user_pool (draws : List UserDraws) : List User :=
  build_user_pool_from 0 draws

/-- The `StreamingEvent` dataclass (data_generator/models.py, lines
56-77), fields in declaration order; floats as rationals, the two nested
dicts as JSON objects. -/
structure StreamingEvent where
  event_id : String
  event_type : String
  user_id : String
  session_id : String
  content_id : String
  content_title : String
  content_type : String
  timestamp : String
  duration_seconds : ℚ
  playback_position_seconds : ℚ
  device_type : String
  device_id : String
  location : List (String × JVal)
  quality_settings : List (String × JVal)
  buffer_duration_ms : Option ℚ
  error_code : Option String
  profile_id : String
  subscription_tier : String

/-- Python's `round` to an integer: round-half-to-even. -/
def roundHalfEven (q : ℚ) : ℤ :=
  if q - ⌊q⌋ < 1 / 2 then ⌊q⌋
  else if 1 / 2 < q - ⌊q⌋ then ⌊q⌋ + 1
  else if Even ⌊q⌋ then ⌊q⌋ else ⌊q⌋ + 1

/-- Python's `round(q, ndigits)` for a nonnegative digit count, modelled
exactly on `ℚ`. -/
def pyRound (ndigits : Nat) (q : ℚ) : ℚ :=
  (roundHalfEven (q * 10 ^ ndigits) : ℚ) / 10 ^ ndigits

/-- Substring occurrence at some position of a character list. -/
def isInfixChars (needle : List Char) : List Char → Bool
  | [] => needle.isEmpty
  | c :: rest => needle.isPrefixOf (c :: rest) || isInfixChars needle rest

/-- Substring test `needle in hay` on Python strings, used by
`"HDR" in quality[0]`. -/
def strContains (hay needle : String) : Bool :=
  isInfixChars needle.data hay.data

/-- The `random` draws consumed by one `_generate_event` call, resolved to
their outcomes: the uniform user and content choices, the weighted event
kind choice, the uniform quality choice within the user's tier, the three
`random.uniform` values, the two generated UUIDs and the wall-clock
timestamp. -/
structure GenDraws where
  userIdx : Nat
  contentIdx : Nat
  eventIdx : Nat
  qualityIdx : Nat
  playbackDraw : ℚ
  durationDraw : ℚ
  bufferDraw : ℚ
  sessionUuid : String
  eventUuid : String
  now : String

/-- Translation of `NetflixEventGenerator._generate_event` (generator.py,
lines 155-202).  `users` is the pre-built pool; `d` resolves the random
draws.  The `getD` fallbacks are dead code for in-range indices, which
`random.choice`/`random.choices` guarantee. -/
def generate_event (users : List User) (d : GenDraws) : StreamingEvent :=
  let user := users.getD d.userIdx defaultUser
  let content := CONTENT_CATALOG.getD d.contentIdx defaultContent
  let event_type := EVENT_KEYS.getD d.eventIdx ""
  let tier := user.subscription_tier
  let quality := (qualityMapGet tier).getD d.qualityIdx ("", 0)
  let playback_pos := d.playbackDraw
  let duration :=
    if event_type == "video_stop" || event_type == "video_complete" then d.durationDraw else 0
  let buffer_ms :=
    if event_type == "buffer_event" then some (pyRound 1 d.bufferDraw) else none
  { event_id := d.eventUuid
    event_type := event_type
    user_id := user.user_id
    session_id := d.sessionUuid
    content_id := content.id
    content_title := content.title
    content_type := content.ctype
    timestamp := d.now
    duration_seconds := pyRound 2 duration
    playback_position_seconds := pyRound 2 playback_pos
    device_type := user.device_type
    device_id := user.device_id
    location := user.location
    quality_settings :=
      [("resolution", .str quality.1), ("bitrate_kbps", .num (quality.2 : ℚ)),
       ("audio_codec", .str "AAC"), ("video_codec", .str "H.265"),
       ("hdr_enabled", .boolean (strContains quality.1 "HDR"))]
    buffer_duration_ms := buffer_ms
    error_code := none
    profile_id := user.profile_id
    subscription_tier := tier }

/-- `StreamingEvent.to_dict` / the decoded form of `to_json`
(models.py, lines 79-87): `asdict` in field order with `None`-valued
fields removed.  Serialising with `json.dumps` and decoding with
`json.loads` round-trips this structured value, so the decoded wire
payload of a generated event is exactly this dictionary. -/
def StreamingEvent.to_dict (e : StreamingEvent) : Payload :=
  [("event_id", .str e.event_id), ("event_type", .str e.event_type),
   ("user_id", .str e.user_id), ("session_id", .str e.session_id),
   ("content_id", .str e.content_id), ("content_title", .str e.content_title),
   ("content_type", .str e.content_type), ("timestamp", .str e.timestamp),
   ("duration_seconds", .num e.duration_seconds),
   ("playback_position_seconds", .num e.playback_position_seconds),
   ("device_type", .str e.device_type), ("device_id", .str e.device_id),
   ("location", .obj e.location), ("quality_settings", .obj e.quality_settings)]
  ++ (match e.buffer_duration_ms with
      | some b => [("buffer_duration_ms", .num b)]
      | none => [])
  ++ (match e.error_code with
      | some c => [("error_code", .str c)]
      | none => [])
  ++ [("profile_id", .str e.profile_id), ("subscription_tier", .str e.subscription_tier)]

/-! Helper lemmas about payload lookup and update. -/

theorem pget_pset_self (e : Payload) (k : String) (v : JVal) :
    pget (pset e k v) k = some v := by
  induction e with
  | nil => simp [pset, pget, List.find?]
  | cons p rest ih =>
      obtain ⟨k', v'⟩ := p
      by_cases h : k' = k
      · simp [pset, pget, List.find?, h]
      · have hb : (k' == k) = false := beq_eq_false_iff_ne.mpr h
        simpa [pset, pget, List.find?, hb] using ih

theorem pget_pset_other (e : Payload) (k k' : String) (v : JVal) (h : k' ≠ k) :
    pget (pset e k v) k' = pget e k' := by
  induction e with
  | nil =>
      have hb : (k == k') = false := beq_eq_false_iff_ne.mpr (Ne.symm h)
      simp [pset, pget, List.find?, hb]
  | cons p rest ih =>
      obtain ⟨k₀, v₀⟩ := p
      by_cases h0 : k₀ = k
      · subst h0
        have hb : (k₀ == k') = false := beq_eq_false_iff_ne.mpr (fun hk => h (hk ▸ rfl))
        simp [pset, pget, List.find?, hb]
      · have hb : (k₀ == k) = false := beq_eq_false_iff_ne.mpr h0
        by_cases h1 : k₀ = k'
        · subst h1
          simp [pset, pget, List.find?, hb]
        · have hb1 : (k₀ == k') = false := beq_eq_false_iff_ne.mpr h1
          simpa [pset, pget, List.find?, hb, hb1] using ih

theorem pset_of_pget_none (e : Payload) (k : String) (v : JVal)
    (h : pget e k = none) : pset e k v = e ++ [(k, v)] := by
  induction e with
  | nil => rfl
  | cons p rest ih =>
      obtain ⟨k₀, v₀⟩ := p
      by_cases h0 : k₀ = k
      · subst h0
        simp [pget, List.find?] at h
      · have hb : (k₀ == k) = false := beq_eq_false_iff_ne.mpr h0
        simp only [pget, List.find?, hb] at h
        simp [pset, hb, ih h]

theorem pget_append_left (e rest : Payload) (k : String) (v : JVal)
    (h : pget e k = some v) : pget (e ++ rest) k = some v := by
  simp only [pget, List.find?_append]
  simp only [pget] at h
  cases hf : e.find? (fun p => p.1 == k) with
  | none => simp [hf] at h
  | some p => simp [hf] at h ⊢; simpa using h

/-! Helper lemmas about strings built by appending a literal. -/

theorem string_append_left_cancel {s u v : String} (h : s ++ u = s ++ v) : u = v := by
  have h2 := congrArg String.data h
  rw [String.data_append, String.data_append] at h2
  exact String.ext (List.append_cancel_left h2)

theorem string_append_ne_of_take_ne {s t : String} (n : Nat)
    (hne : s.data.take n ≠ t.data.take n)
    (hs : n ≤ s.data.length) (ht : n ≤ t.data.length) (u v : String) :
    s ++ u ≠ t ++ v := by
  intro h
  apply hne
  have h2 := congrArg (fun x => x.data.take n) h
  simp only [String.data_append] at h2
  rwa [List.take_append_of_le_length hs, List.take_append_of_le_length ht] at h2

theorem string_literal_append_ne_empty (s u : String) (hs : s.data ≠ []) :
    s ++ u ≠ "" := by
  intro h
  have h2 := congrArg String.data h
  rw [String.data_append] at h2
  exact hs (List.append_eq_nil.mp h2).1

/-! Characterisation of the validator, shared by several claims. -/

/-- The missing-required-field section of the violation list. -/
def missingFieldErrs (e : Payload) : List String :=
  (REQUIRED_FIELDS.filter (fun f => !truthyGet e f)).map
    (fun f => "missing required field: " ++ f)

theorem validate_violations_parts (e : Payload) :
    validate_violations e =
      missingFieldErrs e
      ++ enumErrs e "event_type" VALID_EVENT_TYPES "invalid event_type: "
      ++ enumErrs e "device_type" VALID_DEVICE_TYPES "invalid device_type: " := by
  have h : REQUIRED_FIELDS.filterMap (fun f =>
      if truthyGet e f then none else some ("missing required field: " ++ f)) =
      missingFieldErrs e := by
    simp only [missingFieldErrs, REQUIRED_FIELDS, List.filterMap, List.filter, List.map]
    rcases truthyGet e "event_id" <;> rcases truthyGet e "event_type"
      <;> rcases truthyGet e "user_id" <;> rcases truthyGet e "content_id"
      <;> rcases truthyGet e "timestamp" <;> rfl
  simp [validate_violations, h]

theorem enumErrs_eq_nil_iff (e : Payload) (k : String) (valid : List String)
    (msg : String) :
    enumErrs e k valid msg = [] ↔
      (∀ v, pget e k = some v → jtruthy v = true → jvalIsIn v valid = true) := by
  unfold enumErrs
  cases h : pget e k with
  | none => simp
  | some v =>
      by_cases ht : jtruthy v
      · by_cases hin : jvalIsIn v valid <;> simp [ht, hin]
      · simp [ht, Bool.eq_false_iff.mpr ht]

theorem missingFieldErrs_eq_nil_iff (e : Payload) :
    missingFieldErrs e = [] ↔ ∀ f ∈ REQUIRED_FIELDS, truthyGet e f = true := by
  simp [missingFieldErrs, List.filter_eq_nil_iff]

theorem validate_violations_eq_nil_iff (e : Payload) :
    validate_violations e = [] ↔
      (∀ f ∈ REQUIRED_FIELDS, truthyGet e f = true)
      ∧ (∀ v, pget e "event_type" = some v → jtruthy v = true →
           jvalIsIn v VALID_EVENT_TYPES = true)
      ∧ (∀ v, pget e "device_type" = some v → jtruthy v = true →
           jvalIsIn v VALID_DEVICE_TYPES = true) := by
  rw [validate_violations_parts, List.append_eq_nil, List.append_eq_nil,
    missingFieldErrs_eq_nil_iff, enumErrs_eq_nil_iff, enumErrs_eq_nil_iff]
  tauto

/-! Nodup of the violation list. -/

theorem missingFieldErrs_nodup (e : Payload) : (missingFieldErrs e).Nodup := by
  apply List.Nodup.map
  · intro a b hab
    exact string_append_left_cancel hab
  · exact List.Nodup.filter _ (by decide)

theorem enumErrs_length_le (e : Payload) (k : String) (valid : List String)
    (msg : String) : (enumErrs e k valid msg).length ≤ 1 := by
  unfold enumErrs
  cases pget e k with
  | none => simp
  | some v =>
      by_cases h : jtruthy v && !(jvalIsIn v valid) <;> simp [h]

theorem mem_missingFieldErrs (e : Payload) {m : String}
    (h : m ∈ missingFieldErrs e) : ∃ f, m = "missing required field: " ++ f := by
  simp only [missingFieldErrs, List.mem_map] at h
  obtain ⟨f, _, rfl⟩ := h
  exact ⟨f, rfl⟩

theorem mem_enumErrs (e : Payload) (k : String) (valid : List String)
    (msg : String) {m : String} (h : m ∈ enumErrs e k valid msg) :
    ∃ v, m = msg ++ jvalShow v := by
  unfold enumErrs at h
  cases hv : pget e k with
  | none => simp [hv] at h
  | some v =>
      rw [hv] at h
      by_cases hb : jtruthy v && !(jvalIsIn v valid)
      · simp [hb] at h
        exact ⟨v, h⟩
      · simp [hb] at h

theorem validate_violations_nodup (e : Payload) : (validate_violations e).Nodup := by
  rw [validate_violations_parts]
  have hmiss := missingFieldErrs_nodup e
  have he1 : (enumErrs e "event_type" VALID_EVENT_TYPES "invalid event_type: ").Nodup :=
    List.nodup_iff_sublist.mpr (fun a hs => by
      have := hs.length_le
      have h1 := enumErrs_length_le e "event_type" VALID_EVENT_TYPES "invalid event_type: "
      simp at this; omega)
  have he2 : (enumErrs e "device_type" VALID_DEVICE_TYPES "invalid device_type: ").Nodup :=
    List.nodup_iff_sublist.mpr (fun a hs => by
      have := hs.length_le
      have h1 := enumErrs_length_le e "device_type" VALID_DEVICE_TYPES "invalid device_type: "
      simp at this; omega)
  have d12 : ∀ m ∈ missingFieldErrs e,
      m ∉ enumErrs e "event_type" VALID_EVENT_TYPES "invalid event_type: " := by
    intro m h1 h2
    obtain ⟨f, rfl⟩ := mem_missingFieldErrs e h1
    obtain ⟨v, hv⟩ := mem_enumErrs e _ _ _ h2
    exact string_append_ne_of_take_ne 1 (by decide) (by decide) (by decide) f (jvalShow v) hv
  have d13 : ∀ m ∈ missingFieldErrs e,
      m ∉ enumErrs e "device_type" VALID_DEVICE_TYPES "invalid device_type: " := by
    intro m h1 h2
    obtain ⟨f, rfl⟩ := mem_missingFieldErrs e h1
    obtain ⟨v, hv⟩ := mem_enumErrs e _ _ _ h2
    exact string_append_ne_of_take_ne 1 (by decide) (by decide) (by decide) f (jvalShow v) hv
  have d23 : ∀ m ∈ enumErrs e "event_type" VALID_EVENT_TYPES "invalid event_type: ",
      m ∉ enumErrs e "device_type" VALID_DEVICE_TYPES "invalid device_type: " := by
    intro m h1 h2
    obtain ⟨v, rfl⟩ := mem_enumErrs e _ _ _ h1
    obtain ⟨w, hw⟩ := mem_enumErrs e _ _ _ h2
    exact string_append_ne_of_take_ne 9 (by decide) (by decide) (by decide)
      (jvalShow v) (jvalShow w) hw
  refine List.Nodup.append (List.Nodup.append hmiss he1 ?_) he2 ?_
  · intro m h1 h2
    exact d12 m h1 h2
  · intro m h1 h2
    rcases List.mem_append.mp h1 with h1a | h1b
    · exact d13 m h1a h2
    · exact d23 m h1b h2

theorem pget_append (e rest : Payload) (k : String) :
    pget (e ++ rest) k = (pget e k).or (pget rest k) := by
  simp only [pget, List.find?_append]
  cases e.find? (fun p => p.1 == k) <;> simp

/-- C2 (amended): for every decoded payload whose event-type and
device-type fields do not hold a truthy array or object — the values on
which Python's set-membership test would raise — the validator returns
(rather than raises) exactly the missing-required-field violations in
field order (one per absent-or-empty required field), then the
invalid-event-type violation (when the field is present, truthy and
outside its closed set), then the invalid-device-type violation likewise;
the list is empty iff no violation condition holds, and every violation
occurs exactly once.  (The unamended claim — this holds for *every*
decoded payload — fails when one of the two enum fields holds a
nonempty array/object: `v not in VALID_...` hashes `v` and raises an
uncaught `TypeError`; see the counterexample.) -/
theorem validator_deterministic_spec (e : Payload)
    (h1 : enumRaises e "event_type" = false)
    (h2 : enumRaises e "device_type" = false) :
    validate_event e =
      .ok ((REQUIRED_FIELDS.filter (fun f => !truthyGet e f)).map
        (fun f => "missing required field: " ++ f)
      ++ enumErrs e "event_type" VALID_EVENT_TYPES "invalid event_type: "
      ++ enumErrs e "device_type" VALID_DEVICE_TYPES "invalid device_type: ")
    ∧ (validate_event e = .ok [] ↔
        (∀ f ∈ REQUIRED_FIELDS, truthyGet e f = true)
        ∧ (∀ v, pget e "event_type" = some v → jtruthy v = true →
            jvalIsIn v VALID_EVENT_TYPES = true)
        ∧ (∀ v, pget e "device_type" = some v → jtruthy v = true →
            jvalIsIn v VALID_DEVICE_TYPES = true))
    ∧ (∀ errs, validate_event e = .ok errs → ∀ m ∈ errs, errs.count m = 1) := by
  have hok := validate_event_eq_ok e h1 h2
  refine ⟨?_, ?_, ?_⟩
  · rw [hok, validate_violations_parts e]
    rfl
  · rw [hok]
    constructor
    · intro h
      exact (validate_violations_eq_nil_iff e).mp (Except.ok.inj h)
    · intro h
      rw [(validate_violations_eq_nil_iff e).mpr h]
  · intro errs herrs m hm
    rw [hok] at herrs
    cases Except.ok.inj herrs
    exact List.count_eq_one_of_mem (validate_violations_nodup e) hm

/-- Witness for C2 at the payload `{"event_type": "video_start"}` of the
spec's example: the four missing-field violations, each exactly once. -/
theorem validator_deterministic_spec_witness :
    validate_event [("event_type", JVal.str "video_start")] =
      .ok ["missing required field: event_id", "missing required field: user_id",
           "missing required field: content_id", "missing required field: timestamp"]
    ∧ (["missing required field: event_id", "missing required field: user_id",
        "missing required field: content_id", "missing required field: timestamp"] :
          List String).count "missing required field: event_id" = 1 :=
  ⟨by decide,
   (validator_deterministic_spec [("event_type", JVal.str "video_start")]
       rfl rfl).2.2
     ["missing required field: event_id", "missing required field: user_id",
      "missing required field: content_id", "missing required field: timestamp"]
     (by decide) "missing required field: event_id" (by decide)⟩

/-- Counterexample to C2 as stated: a payload whose event type is the
nonempty JSON array `[1]` (truthy, so the membership test runs, and
unhashable in Python) makes `_validate_event` raise an uncaught
`TypeError` instead of returning a violation list. -/
theorem validator_deterministic_spec_counterexample :
    validate_event [("event_type", JVal.arr [JVal.num 1])] = .error "TypeError" := rfl

/-- C3 (amended): for a payload whose timestamp field holds a string, the
enricher succeeds; the hour bucket is the parsed timestamp floored to the
hour and formatted `YYYY-MM-DDTHH:00:00Z` when `fromisoformat` (after the
`Z` to `+00:00` substitution) succeeds and `None` when it fails, and no
field other than the four enrichment-metadata fields is altered.  (The
unamended claim — enrichment never raises on *any* malformed timestamp
value — fails on non-string timestamp values, see the counterexample.) -/
theorem enrich_hour_bucket_spec (freshId now : String) (e : Payload) (s : String)
    (hts : pget e "timestamp" = some (.str s)) :
    ∃ e', enrich_event freshId now e = .ok e'
      ∧ (∀ dt, fromisoformat (pyReplace s "Z" "+00:00") = some dt →
          pget e' "hour_bucket" = some (.str (hourBucketFmt dt)))
      ∧ (fromisoformat (pyReplace s "Z" "+00:00") = none →
          pget e' "hour_bucket" = some .null)
      ∧ (∀ k, k ≠ "id" → k ≠ "processed_at" → k ≠ "processing_version" →
          k ≠ "hour_bucket" → pget e' k = pget e k) := by
  have hts3 : pget (pset (pset (pset e "id" ((pget e "event_id").getD (.str freshId)))
      "processed_at" (.str now)) "processing_version" (.str PROCESSING_VERSION))
      "timestamp" = some (.str s) := by
    rw [pget_pset_other _ _ _ _ (by decide), pget_pset_other _ _ _ _ (by decide),
      pget_pset_other _ _ _ _ (by decide)]
    exact hts
  simp only [enrich_event, hts3]
  cases hp : fromisoformat (pyReplace s "Z" "+00:00") with
  | some dt =>
      refine ⟨_, rfl, ?_, ?_, ?_⟩
      · intro dt' hdt'
        cases hdt'
        exact pget_pset_self ..
      · intro hnone
        cases hnone
      · intro k h1 h2 h3 h4
        rw [pget_pset_other _ _ _ _ h4, pget_pset_other _ _ _ _ h3,
          pget_pset_other _ _ _ _ h2, pget_pset_other _ _ _ _ h1]
  | none =>
      refine ⟨_, rfl, ?_, ?_, ?_⟩
      · intro dt' hdt'
        cases hdt'
      · intro _
        exact pget_pset_self ..
      · intro k h1 h2 h3 h4
        rw [pget_pset_other _ _ _ _ h4, pget_pset_other _ _ _ _ h3,
          pget_pset_other _ _ _ _ h2, pget_pset_other _ _ _ _ h1]

/-- Witness for C3 at the spec's example timestamp: the hour bucket of
`2025-01-15T14:30:00Z` is `2025-01-15T14:00:00Z`. -/
theorem enrich_hour_bucket_spec_witness :
    (∃ e', enrich_event "f" "t"
        [("event_id", JVal.str "abc"), ("timestamp", JVal.str "2025-01-15T14:30:00Z")] = .ok e'
      ∧ (∀ dt, fromisoformat (pyReplace "2025-01-15T14:30:00Z" "Z" "+00:00") = some dt →
          pget e' "hour_bucket" = some (.str (hourBucketFmt dt)))
      ∧ (fromisoformat (pyReplace "2025-01-15T14:30:00Z" "Z" "+00:00") = none →
          pget e' "hour_bucket" = some .null)
      ∧ (∀ k, k ≠ "id" → k ≠ "processed_at" → k ≠ "processing_version" →
          k ≠ "hour_bucket" → pget e' k =
            pget [("event_id", JVal.str "abc"), ("timestamp", JVal.str "2025-01-15T14:30:00Z")] k))
    ∧ fromisoformat (pyReplace "2025-01-15T14:30:00Z" "Z" "+00:00") =
        some ⟨2025, 1, 15, 14⟩
    ∧ hourBucketFmt ⟨2025, 1, 15, 14⟩ = "2025-01-15T14:00:00Z" :=
  ⟨enrich_hour_bucket_spec "f" "t"
      [("event_id", JVal.str "abc"), ("timestamp", JVal.str "2025-01-15T14:30:00Z")]
      "2025-01-15T14:30:00Z" rfl,
   rfl, rfl⟩

/-- Counterexample to C3 as stated: a payload whose timestamp is the JSON
number `1` (truthy, hence it passes validation; not a string, hence it
"does not parse as ISO-8601") makes `_enrich_event` raise an uncaught
`AttributeError` — `int` has no `replace` method, and only `ValueError`
and `KeyError` are caught — instead of succeeding with a null hour
bucket. -/
theorem enrich_hour_bucket_spec_counterexample :
    enrich_event "f" "t" [("timestamp", JVal.num 1)] = .error "AttributeError" := rfl

/-- C4 (amended): for a payload whose timestamp field (if present) holds a
string and which contains none of the four enrichment-metadata keys, the
enricher succeeds and returns the input payload with exactly the fields
`id`, `processed_at`, `processing_version` and `hour_bucket` appended, in
that order; every original field keeps its original value, and `id` equals
the stored `event_id` value when that key is present and the freshly
generated identifier otherwise.  (The unamended claim — this holds for
*every* input payload — fails both on non-string timestamps, where the
enricher raises, and on payloads that already contain one of the four
metadata keys, whose value is overwritten; see the counterexample.) -/
theorem enrich_non_destructive (freshId now : String) (e : Payload)
    (hts : ∀ v, pget e "timestamp" = some v → ∃ s, v = JVal.str s)
    (hid : pget e "id" = none) (hpa : pget e "processed_at" = none)
    (hpv : pget e "processing_version" = none) (hhb : pget e "hour_bucket" = none) :
    ∃ hb, enrich_event freshId now e =
        .ok (e ++ [("id", (pget e "event_id").getD (.str freshId)),
                   ("processed_at", .str now),
                   ("processing_version", .str PROCESSING_VERSION),
                   ("hour_bucket", hb)])
      ∧ ∀ k v, pget e k = some v →
          pget (e ++ [("id", (pget e "event_id").getD (.str freshId)),
                      ("processed_at", .str now),
                      ("processing_version", .str PROCESSING_VERSION),
                      ("hour_bucket", hb)]) k = some v := by
  have h1 : pset e "id" ((pget e "event_id").getD (.str freshId)) =
      e ++ [("id", (pget e "event_id").getD (.str freshId))] :=
    pset_of_pget_none _ _ _ hid
  have h2 : pset (e ++ [("id", (pget e "event_id").getD (.str freshId))])
      "processed_at" (.str now) =
      e ++ [("id", (pget e "event_id").getD (.str freshId))] ++ [("processed_at", .str now)] := by
    refine pset_of_pget_none _ _ _ ?_
    rw [pget_append, hpa]
    rfl
  have h3 : pset (e ++ [("id", (pget e "event_id").getD (.str freshId))]
        ++ [("processed_at", .str now)]) "processing_version" (.str PROCESSING_VERSION) =
      e ++ [("id", (pget e "event_id").getD (.str freshId))] ++ [("processed_at", .str now)]
        ++ [("processing_version", .str PROCESSING_VERSION)] := by
    refine pset_of_pget_none _ _ _ ?_
    rw [pget_append, pget_append, hpv]
    rfl
  have hbuck : ∀ hb : JVal,
      pset (e ++ [("id", (pget e "event_id").getD (.str freshId))] ++ [("processed_at", .str now)]
        ++ [("processing_version", .str PROCESSING_VERSION)]) "hour_bucket" hb =
      e ++ [("id", (pget e "event_id").getD (.str freshId)), ("processed_at", .str now),
            ("processing_version", .str PROCESSING_VERSION), ("hour_bucket", hb)] := by
    intro hb
    have := pset_of_pget_none
      (e ++ [("id", (pget e "event_id").getD (.str freshId))] ++ [("processed_at", .str now)]
        ++ [("processing_version", .str PROCESSING_VERSION)]) "hour_bucket" hb
      (by rw [pget_append, pget_append, pget_append, hhb]; rfl)
    rw [this]
    simp [List.append_assoc]
  have htsE : pget (e ++ [("id", (pget e "event_id").getD (.str freshId))]
      ++ [("processed_at", .str now)] ++ [("processing_version", .str PROCESSING_VERSION)])
      "timestamp" = pget e "timestamp" := by
    rw [pget_append, pget_append, pget_append]
    cases pget e "timestamp" <;> rfl
  have frame : ∀ hb : JVal, ∀ k v, pget e k = some v →
      pget (e ++ [("id", (pget e "event_id").getD (.str freshId)), ("processed_at", .str now),
            ("processing_version", .str PROCESSING_VERSION), ("hour_bucket", hb)]) k = some v := by
    intro hb k v hkv
    exact pget_append_left _ _ _ _ hkv
  cases hts0 : pget e "timestamp" with
  | none =>
      refine ⟨.null, ?_, frame .null⟩
      simp only [enrich_event, h1, h2, h3, htsE, hts0, hbuck]
  | some v =>
      obtain ⟨s, rfl⟩ := hts v hts0
      cases hp : fromisoformat (pyReplace s "Z" "+00:00") with
      | some dt =>
          refine ⟨.str (hourBucketFmt dt), ?_, frame _⟩
          simp only [enrich_event, h1, h2, h3, htsE, hts0, hp, hbuck]
      | none =>
          refine ⟨.null, ?_, frame .null⟩
          simp only [enrich_event, h1, h2, h3, htsE, hts0, hp, hbuck]

/-- Witness for C4 at a concrete valid payload: the four metadata fields
are appended, `id` taking the `event_id` value. -/
theorem enrich_non_destructive_witness :
    ∃ hb, enrich_event "fresh-uuid" "2025-02-01T00:00:00+00:00"
        [("event_id", JVal.str "abc"), ("timestamp", JVal.str "2025-01-15T14:30:00Z")] =
        .ok ([("event_id", JVal.str "abc"), ("timestamp", JVal.str "2025-01-15T14:30:00Z")]
             ++ [("id", (pget [("event_id", JVal.str "abc"),
                      ("timestamp", JVal.str "2025-01-15T14:30:00Z")] "event_id").getD
                    (.str "fresh-uuid")),
                 ("processed_at", .str "2025-02-01T00:00:00+00:00"),
                 ("processing_version", .str PROCESSING_VERSION),
                 ("hour_bucket", hb)])
      ∧ ∀ k v, pget [("event_id", JVal.str "abc"),
            ("timestamp", JVal.str "2025-01-15T14:30:00Z")] k = some v →
          pget ([("event_id", JVal.str "abc"), ("timestamp", JVal.str "2025-01-15T14:30:00Z")]
             ++ [("id", (pget [("event_id", JVal.str "abc"),
                      ("timestamp", JVal.str "2025-01-15T14:30:00Z")] "event_id").getD
                    (.str "fresh-uuid")),
                 ("processed_at", .str "2025-02-01T00:00:00+00:00"),
                 ("processing_version", .str PROCESSING_VERSION),
                 ("hour_bucket", hb)]) k = some v :=
  enrich_non_destructive "fresh-uuid" "2025-02-01T00:00:00+00:00"
    [("event_id", JVal.str "abc"), ("timestamp", JVal.str "2025-01-15T14:30:00Z")]
    (fun v hv => ⟨"2025-01-15T14:30:00Z", by cases hv; rfl⟩)
    rfl rfl rfl rfl

/-- Counterexample to C4 as stated: enrichment *can* fail — on a payload
whose (truthy, validation-passing) timestamp is the JSON number `1` it
raises an uncaught `AttributeError` — and it *can* alter an original
field: a payload that already carries an `id` key has that value
overwritten with the `event_id` value (here `"Z-original"` becomes
`"E1"`), so the original field does not keep its value and the key `id`
is not among the added keys. -/
theorem enrich_non_destructive_counterexample :
    enrich_event "f" "t"
      [("event_id", JVal.str "E1"), ("timestamp", JVal.num 1)] = .error "AttributeError"
    ∧ enrich_event "f" "t" [("event_id", JVal.str "E1"), ("id", JVal.str "Z-original")] =
        .ok [("event_id", JVal.str "E1"), ("id", JVal.str "E1"),
             ("processed_at", JVal.str "t"), ("processing_version", JVal.str "1.0.0"),
             ("hour_bucket", JVal.null)] :=
  ⟨rfl, rfl⟩

/-! Helper lemmas about the batch processor. -/

/-- The outcome `_send_to_dlq` produces, as a function of the configuration
and sink oracles. -/
def dlqResult (producerConfigured sinkOk : Bool) (raw : List Char)
    (errors : List String) (now : String) : SendOutcome :=
  if producerConfigured = false then .dropped
  else if sinkOk then .sent ⟨raw.take 8192, errors, now⟩
  else .sendFailed

theorem send_to_dlq_eq (producerConfigured sinkOk : Bool) (raw : List Char)
    (errors : List String) (now : String) :
    send_to_dlq producerConfigured sinkOk raw errors now =
      .ok (dlqResult producerConfigured sinkOk raw errors now) := by
  unfold send_to_dlq dlqResult sinkSend
  by_cases hc : producerConfigured = false
  · simp [hc]
  · cases sinkOk <;> simp [hc]

theorem combineOutcome_assoc (a b c : BatchOutcome) :
    combineOutcome (combineOutcome a b) c = combineOutcome a (combineOutcome b c) := by
  simp [combineOutcome, Nat.add_assoc, List.append_assoc]

theorem combineOutcome_empty_left (b : BatchOutcome) :
    combineOutcome emptyOutcome b = b := by
  cases b
  simp [combineOutcome, emptyOutcome]

theorem main_append (cfg : Bool) (xs ys : List RawItem) :
    main cfg (xs ++ ys) =
      match main cfg xs with
      | .error e => .error e
      | .ok o1 =>
          match main cfg ys with
          | .error e => .error e
          | .ok o2 => .ok (combineOutcome o1 o2) := by
  induction xs with
  | nil =>
      simp only [List.nil_append, main]
      cases hys : main cfg ys with
      | error e => rfl
      | ok o2 => dsimp only; rw [combineOutcome_empty_left]
  | cons it rest ih =>
      simp only [List.cons_append, main, List.append_eq, ih]
      cases hit : process_item cfg it with
      | error e => rfl
      | ok o1 =>
          dsimp only
          cases hrest : main cfg rest with
          | error e => rfl
          | ok o2 =>
              dsimp only
              cases hys : main cfg ys with
              | error e => rfl
              | ok o3 => dsimp only; rw [combineOutcome_assoc]

theorem process_item_decode_failed (cfg : Bool) (it : RawItem) (raw : List Char)
    (h1 : it.utf8 = some raw) (h2 : it.json = none) :
    process_item cfg it = .ok ⟨0, 1, [dlqResult cfg it.sinkOk raw ["invalid JSON"] it.now]⟩ := by
  unfold process_item
  rw [h1, h2]
  dsimp only
  rw [send_to_dlq_eq]

theorem isEmpty_eq_false_of_ne_nil {α : Type} {l : List α} (h : l ≠ []) :
    l.isEmpty = false := by
  cases l with
  | nil => exact absurd rfl h
  | cons a t => rfl

theorem process_item_validation_failed (cfg : Bool) (it : RawItem) (raw : List Char)
    (d : Payload) (errs : List String) (h1 : it.utf8 = some raw) (h2 : it.json = some d)
    (h3 : validate_event d = .ok errs) (hne : errs ≠ []) :
    process_item cfg it =
      .ok ⟨0, 1, [dlqResult cfg it.sinkOk raw errs it.now]⟩ := by
  unfold process_item
  rw [h1, h2]
  dsimp only
  rw [h3]
  dsimp only
  have hie : errs.isEmpty = false := isEmpty_eq_false_of_ne_nil hne
  simp only [hie, send_to_dlq_eq]
  simp

theorem process_item_valid (cfg : Bool) (it : RawItem) (raw : List Char)
    (d p : Payload) (h1 : it.utf8 = some raw) (h2 : it.json = some d)
    (h3 : validate_event d = .ok []) (h4 : enrich_event it.freshId it.now d = .ok p) :
    process_item cfg it = if it.upsertOk then .ok ⟨1, 0, []⟩ else .ok ⟨0, 1, []⟩ := by
  unfold process_item
  rw [h1, h2]
  dsimp only
  rw [h3]
  dsimp only
  simp only [List.isEmpty_nil, h4]
  cases it.upsertOk <;> simp

/-- Whether a decoded item fails validation (an undecodable item does not
count: it fails earlier, at the decode step). -/
def itemFailsValidation (it : RawItem) : Bool :=
  match it.json with
  | some d =>
      match validate_event d with
      | .ok errs => !errs.isEmpty
      | .error _ => false
  | none => false

theorem length_filter_split (p : RawItem → Bool) (l : List RawItem) :
    (l.filter p).length + (l.filter (fun it => !p it)).length = l.length := by
  induction l with
  | nil => rfl
  | cons a l ih =>
      by_cases h : p a <;> simp [List.filter_cons, h] <;> omega


/-- C1: for every batch whose items all decode and in which every item
that passes validation also persists (enrichment and upsert succeed), the
batch completes cleanly (no exception) and reports `error_count` equal to
the number of validation-failing items and `success_count` equal to the
rest — independently of where the failing items sit in the batch; in
particular an all-invalid batch returns cleanly with `error_count` equal
to the batch size. -/
theorem batch_isolation (cfg : Bool) (events : List RawItem)
    (hdec : ∀ it ∈ events, (∃ raw, it.utf8 = some raw) ∧ (∃ d, it.json = some d))
    (hval : ∀ it ∈ events, ∀ d, it.json = some d → ∃ errs, validate_event d = .ok errs)
    (hok : ∀ it ∈ events, ∀ d, it.json = some d → validate_event d = .ok [] →
        (∃ p, enrich_event it.freshId it.now d = .ok p) ∧ it.upsertOk = true) :
    ∃ o, main cfg events = .ok o
      ∧ o.error_count = (events.filter itemFailsValidation).length
      ∧ o.success_count = events.length - (events.filter itemFailsValidation).length := by
  have aux : ∀ evs : List RawItem,
      (∀ it ∈ evs, (∃ raw, it.utf8 = some raw) ∧ (∃ d, it.json = some d)) →
      (∀ it ∈ evs, ∀ d, it.json = some d → ∃ errs, validate_event d = .ok errs) →
      (∀ it ∈ evs, ∀ d, it.json = some d → validate_event d = .ok [] →
          (∃ p, enrich_event it.freshId it.now d = .ok p) ∧ it.upsertOk = true) →
      ∃ o, main cfg evs = .ok o
        ∧ o.error_count = (evs.filter itemFailsValidation).length
        ∧ o.success_count = (evs.filter (fun it => !itemFailsValidation it)).length := by
    intro evs
    induction evs with
    | nil => exact fun _ _ _ => ⟨emptyOutcome, rfl, rfl, rfl⟩
    | cons it rest ih =>
        intro hdec hval hok
        obtain ⟨⟨raw, hraw⟩, ⟨d, hd⟩⟩ := hdec it (List.mem_cons_self it rest)
        obtain ⟨errs, herrs⟩ := hval it (List.mem_cons_self it rest) d hd
        obtain ⟨o2, ho2, he2, hs2⟩ :=
          ih (fun x hx => hdec x (List.mem_cons_of_mem _ hx))
            (fun x hx => hval x (List.mem_cons_of_mem _ hx))
            (fun x hx => hok x (List.mem_cons_of_mem _ hx))
        by_cases hv : errs = []
        · subst hv
          obtain ⟨⟨p, hp⟩, hup⟩ := hok it (List.mem_cons_self it rest) d hd herrs
          have hitem := process_item_valid cfg it raw d p hraw hd herrs hp
          rw [hup, if_pos rfl] at hitem
          have hfail : itemFailsValidation it = false := by
            simp [itemFailsValidation, hd, herrs]
          refine ⟨combineOutcome ⟨1, 0, []⟩ o2, ?_, ?_, ?_⟩
          · simp only [main, hitem, ho2]
          · simp [combineOutcome, List.filter_cons, hfail, he2, Nat.add_comm]
          · simp [combineOutcome, List.filter_cons, hfail, hs2, Nat.add_comm]
        · have hitem := process_item_validation_failed cfg it raw d errs hraw hd herrs hv
          have hfail : itemFailsValidation it = true := by
            simp [itemFailsValidation, hd, herrs, isEmpty_eq_false_of_ne_nil hv]
          refine ⟨combineOutcome ⟨0, 1, [dlqResult cfg it.sinkOk raw errs it.now]⟩ o2,
            ?_, ?_, ?_⟩
          · simp only [main, hitem, ho2]
          · simp [combineOutcome, List.filter_cons, hfail, he2, Nat.add_comm]
          · simp [combineOutcome, List.filter_cons, hfail, hs2, Nat.add_comm]
  obtain ⟨o, ho, he, hs⟩ := aux events hdec hval hok
  refine ⟨o, ho, he, ?_⟩
  have hsplit := length_filter_split itemFailsValidation events
  omega

/-- Witness for C1: a three-item batch with the two validation failures
interleaved around a fully valid item yields `error_count = 2`,
`success_count = 1`. -/
theorem batch_isolation_witness :
    ∃ o, main true
        [⟨some ['a'], some [("event_type", JVal.str "video_start")], true, true, "f1", "t1"⟩,
         ⟨some ['b'], some [("event_id", JVal.str "e1"), ("event_type", JVal.str "video_start"),
            ("user_id", JVal.str "u1"), ("content_id", JVal.str "c1"),
            ("timestamp", JVal.str "2025-01-15T14:30:00Z")], true, true, "f2", "t2"⟩,
         ⟨some ['c'], some [("event_type", JVal.str "video_explode")], true, true, "f3", "t3"⟩] = .ok o
      ∧ o.error_count =
          ([⟨some ['a'], some [("event_type", JVal.str "video_start")], true, true, "f1", "t1"⟩,
            ⟨some ['b'], some [("event_id", JVal.str "e1"), ("event_type", JVal.str "video_start"),
               ("user_id", JVal.str "u1"), ("content_id", JVal.str "c1"),
               ("timestamp", JVal.str "2025-01-15T14:30:00Z")], true, true, "f2", "t2"⟩,
            ⟨some ['c'], some [("event_type", JVal.str "video_explode")], true, true, "f3", "t3"⟩].filter
              itemFailsValidation).length
      ∧ o.success_count = ([⟨some ['a'], some [("event_type", JVal.str "video_start")], true, true, "f1", "t1"⟩,
            ⟨some ['b'], some [("event_id", JVal.str "e1"), ("event_type", JVal.str "video_start"),
               ("user_id", JVal.str "u1"), ("content_id", JVal.str "c1"),
               ("timestamp", JVal.str "2025-01-15T14:30:00Z")], true, true, "f2", "t2"⟩,
            ⟨some ['c'], some [("event_type", JVal.str "video_explode")], true, true, "f3", "t3"⟩] :
              List RawItem).length -
          ([⟨some ['a'], some [("event_type", JVal.str "video_start")], true, true, "f1", "t1"⟩,
            ⟨some ['b'], some [("event_id", JVal.str "e1"), ("event_type", JVal.str "video_start"),
               ("user_id", JVal.str "u1"), ("content_id", JVal.str "c1"),
               ("timestamp", JVal.str "2025-01-15T14:30:00Z")], true, true, "f2", "t2"⟩,
            ⟨some ['c'], some [("event_type", JVal.str "video_explode")], true, true, "f3", "t3"⟩].filter
              itemFailsValidation).length :=
  batch_isolation true _
    (by
      intro it hit
      simp only [List.mem_cons, List.not_mem_nil, or_false] at hit
      rcases hit with rfl | rfl | rfl
      · exact ⟨⟨_, rfl⟩, ⟨_, rfl⟩⟩
      · exact ⟨⟨_, rfl⟩, ⟨_, rfl⟩⟩
      · exact ⟨⟨_, rfl⟩, ⟨_, rfl⟩⟩)
    (by
      intro it hit d hd
      simp only [List.mem_cons, List.not_mem_nil, or_false] at hit
      rcases hit with rfl | rfl | rfl
      · cases hd; exact ⟨_, rfl⟩
      · cases hd; exact ⟨_, rfl⟩
      · cases hd; exact ⟨_, rfl⟩)
    (by
      intro it hit d hd hv
      simp only [List.mem_cons, List.not_mem_nil, or_false] at hit
      rcases hit with rfl | rfl | rfl
      · cases hd; exact absurd hv (by decide)
      · cases hd; exact ⟨⟨_, rfl⟩, rfl⟩
      · cases hd; exact absurd hv (by decide))

/-- C5 (amended): for every batch item whose body text decodes from UTF-8
but fails to parse as JSON, the processor builds a dead-letter envelope
with `validation_errors = ["invalid JSON"]` and the truncated raw body,
forwards it to the sink (when one is configured and accepts the send),
counts one error, and the siblings before and after are processed exactly
as they would be on their own.  (The unamended claim — covering *every*
item whose raw bytes fail to decode — fails for bodies that are not valid
UTF-8: `.decode("utf-8")` raises before the `try` block around
`json.loads`, aborting the whole batch; see the counterexample.) -/
theorem decode_failure_dead_letters (cfg : Bool) (pre post : List RawItem)
    (it : RawItem) (raw : List Char) (h1 : it.utf8 = some raw) (h2 : it.json = none)
    (o1 o2 : BatchOutcome) (hpre : main cfg pre = .ok o1) (hpost : main cfg post = .ok o2) :
    main cfg (pre ++ it :: post) =
      .ok ⟨o1.success_count + o2.success_count,
           o1.error_count + (1 + o2.error_count),
           o1.dlq_sends ++ dlqResult cfg it.sinkOk raw ["invalid JSON"] it.now :: o2.dlq_sends⟩
      ∧ dlqResult true true raw ["invalid JSON"] it.now =
          .sent ⟨raw.take 8192, ["invalid JSON"], it.now⟩ := by
  constructor
  · rw [main_append, hpre]
    dsimp only
    have hmid : main cfg (it :: post) =
        .ok (combineOutcome ⟨0, 1, [dlqResult cfg it.sinkOk raw ["invalid JSON"] it.now]⟩ o2) := by
      simp only [main, process_item_decode_failed cfg it raw h1 h2, hpost]
    rw [hmid]
    dsimp only
    simp [combineOutcome]
  · rfl

/-- Witness for C5: a two-sided batch around a malformed-JSON item; the
envelope carries `["invalid JSON"]` and both siblings are processed. -/
theorem decode_failure_dead_letters_witness :
    main true
        ([⟨some ['g'], some [("event_id", JVal.str "e1"), ("event_type", JVal.str "video_start"),
            ("user_id", JVal.str "u1"), ("content_id", JVal.str "c1"),
            ("timestamp", JVal.str "2025-01-15T14:30:00Z")], true, true, "f0", "t0"⟩]
          ++ ⟨some ['n', 'o', 't'], none, true, true, "f1", "t1"⟩ ::
             [⟨some ['h'], some [("event_id", JVal.str "e2"), ("event_type", JVal.str "video_stop"),
                ("user_id", JVal.str "u2"), ("content_id", JVal.str "c2"),
                ("timestamp", JVal.str "2025-01-15T15:30:00Z")], true, true, "f2", "t2"⟩]) =
      .ok ⟨(1 : Nat) + 1, 0 + (1 + 0),
           ([] : List SendOutcome) ++
             dlqResult true true ['n', 'o', 't'] ["invalid JSON"] "t1" :: ([] : List SendOutcome)⟩
    ∧ dlqResult true true ['n', 'o', 't'] ["invalid JSON"] "t1" =
        .sent ⟨['n', 'o', 't'].take 8192, ["invalid JSON"], "t1"⟩ :=
  decode_failure_dead_letters true _ _ _ ['n', 'o', 't'] rfl rfl ⟨1, 0, []⟩ ⟨1, 0, []⟩ rfl rfl

/-- Counterexample to C5 as stated: an item whose raw bytes are not valid
UTF-8 fails to decode as a structured payload, yet it is not dead-lettered
and does not increment the error counter — the uncaught
`UnicodeDecodeError` aborts the invocation, including the processing of
the valid sibling that follows. -/
theorem decode_failure_dead_letters_counterexample :
    main true
        [⟨none, none, true, true, "f1", "t1"⟩,
         ⟨some ['h'], some [("event_id", JVal.str "e2"), ("event_type", JVal.str "video_stop"),
            ("user_id", JVal.str "u2"), ("content_id", JVal.str "c2"),
            ("timestamp", JVal.str "2025-01-15T15:30:00Z")], true, true, "f2", "t2"⟩] =
      .error "UnicodeDecodeError" := rfl

/-- C6: an item that decodes and validates successfully and reaches the
upsert is counted as one error when the upsert fails — with *no*
dead-letter send — and as one success when it succeeds; in both cases the
siblings before and after are processed exactly as on their own. -/
theorem persist_failure_counted_not_dead_lettered (cfg : Bool)
    (pre post : List RawItem) (it : RawItem) (raw : List Char) (d p : Payload)
    (h1 : it.utf8 = some raw) (h2 : it.json = some d)
    (h3 : validate_event d = .ok []) (h4 : enrich_event it.freshId it.now d = .ok p)
    (o1 o2 : BatchOutcome) (hpre : main cfg pre = .ok o1) (hpost : main cfg post = .ok o2) :
    (it.upsertOk = false →
      main cfg (pre ++ it :: post) =
        .ok ⟨o1.success_count + o2.success_count,
             o1.error_count + (1 + o2.error_count),
             o1.dlq_sends ++ o2.dlq_sends⟩)
    ∧ (it.upsertOk = true →
      main cfg (pre ++ it :: post) =
        .ok ⟨o1.success_count + (1 + o2.success_count),
             o1.error_count + o2.error_count,
             o1.dlq_sends ++ o2.dlq_sends⟩) := by
  have hitem := process_item_valid cfg it raw d p h1 h2 h3 h4
  constructor
  · intro hup
    rw [hup, if_neg (by simp)] at hitem
    rw [main_append, hpre]
    dsimp only
    have hmid : main cfg (it :: post) = .ok (combineOutcome ⟨0, 1, []⟩ o2) := by
      simp only [main, hitem, hpost]
    rw [hmid]
    dsimp only
    simp [combineOutcome]
  · intro hup
    rw [hup, if_pos rfl] at hitem
    rw [main_append, hpre]
    dsimp only
    have hmid : main cfg (it :: post) = .ok (combineOutcome ⟨1, 0, []⟩ o2) := by
      simp only [main, hitem, hpost]
    rw [hmid]
    dsimp only
    simp [combineOutcome]

/-- Witness for C6: a valid item whose upsert fails, between two valid
persisted items: one error, no dead-letter send. -/
theorem persist_failure_counted_not_dead_lettered_witness :
    main true
        ([⟨some ['g'], some [("event_id", JVal.str "e1"), ("event_type", JVal.str "video_start"),
            ("user_id", JVal.str "u1"), ("content_id", JVal.str "c1"),
            ("timestamp", JVal.str "2025-01-15T14:30:00Z")], true, true, "f0", "t0"⟩]
          ++ ⟨some ['m'], some [("event_id", JVal.str "e9"), ("event_type", JVal.str "video_pause"),
                ("user_id", JVal.str "u9"), ("content_id", JVal.str "c9"),
                ("timestamp", JVal.str "2025-01-15T16:00:00Z")], false, true, "f9", "t9"⟩ ::
             [⟨some ['h'], some [("event_id", JVal.str "e2"), ("event_type", JVal.str "video_stop"),
                ("user_id", JVal.str "u2"), ("content_id", JVal.str "c2"),
                ("timestamp", JVal.str "2025-01-15T15:30:00Z")], true, true, "f2", "t2"⟩]) =
      .ok ⟨(1 : Nat) + 1, 0 + (1 + 0), ([] : List SendOutcome) ++ ([] : List SendOutcome)⟩ :=
  (persist_failure_counted_not_dead_lettered true
      [⟨some ['g'], some [("event_id", JVal.str "e1"), ("event_type", JVal.str "video_start"),
         ("user_id", JVal.str "u1"), ("content_id", JVal.str "c1"),
         ("timestamp", JVal.str "2025-01-15T14:30:00Z")], true, true, "f0", "t0"⟩]
      [⟨some ['h'], some [("event_id", JVal.str "e2"), ("event_type", JVal.str "video_stop"),
         ("user_id", JVal.str "u2"), ("content_id", JVal.str "c2"),
         ("timestamp", JVal.str "2025-01-15T15:30:00Z")], true, true, "f2", "t2"⟩]
      ⟨some ['m'], some [("event_id", JVal.str "e9"), ("event_type", JVal.str "video_pause"),
         ("user_id", JVal.str "u9"), ("content_id", JVal.str "c9"),
         ("timestamp", JVal.str "2025-01-15T16:00:00Z")], false, true, "f9", "t9"⟩
      ['m']
      [("event_id", JVal.str "e9"), ("event_type", JVal.str "video_pause"),
       ("user_id", JVal.str "u9"), ("content_id", JVal.str "c9"),
       ("timestamp", JVal.str "2025-01-15T16:00:00Z")] _
      rfl rfl (by decide) rfl ⟨1, 0, []⟩ ⟨1, 0, []⟩ rfl rfl).1 rfl

/-- C7: `_send_to_dlq` is best effort — with no producer configured it
drops the event and returns; with a producer, the envelope it sends embeds
the raw body truncated to at most 8192 characters; a sink failure is
swallowed; and in every case the call returns normally instead of
raising. -/
theorem dlq_best_effort (cfg sinkOk : Bool) (raw : List Char)
    (errors : List String) (now : String) :
    (cfg = false → send_to_dlq cfg sinkOk raw errors now = .ok .dropped)
    ∧ (cfg = true → sinkOk = true →
        send_to_dlq cfg sinkOk raw errors now = .ok (.sent ⟨raw.take 8192, errors, now⟩)
        ∧ (raw.take 8192).length ≤ 8192)
    ∧ (cfg = true → sinkOk = false →
        send_to_dlq cfg sinkOk raw errors now = .ok .sendFailed)
    ∧ ∃ o, send_to_dlq cfg sinkOk raw errors now = .ok o := by
  refine ⟨?_, ?_, ?_, ?_⟩
  · intro h
    rw [send_to_dlq_eq]
    simp [dlqResult, h]
  · intro h1 h2
    constructor
    · rw [send_to_dlq_eq]
      simp [dlqResult, h1, h2]
    · exact List.length_take_le 8192 raw
  · intro h1 h2
    rw [send_to_dlq_eq]
    simp [dlqResult, h1, h2]
  · exact ⟨_, send_to_dlq_eq cfg sinkOk raw errors now⟩

/-- Witness for C7 at the spec's example size: a 50000-character raw
payload yields an envelope whose `original_event` is at most 8192
characters. -/
theorem dlq_best_effort_witness :
    send_to_dlq true true (List.replicate 50000 'x') ["invalid JSON"] "t" =
      .ok (.sent ⟨(List.replicate 50000 'x').take 8192, ["invalid JSON"], "t"⟩)
    ∧ ((List.replicate 50000 'x').take 8192).length ≤ 8192 :=
  (dlq_best_effort true true (List.replicate 50000 'x') ["invalid JSON"] "t").2.1 rfl rfl

/-- C9 (amended): whenever the batch loop completes without raising, every
item has contributed to exactly one of the two counters, so
`success_count + error_count` equals the batch length.  (The unamended
claim — covering *every* batch — fails on batches that abort mid-loop
via an uncaught exception, e.g. a validation-passing payload whose
timestamp is a number; see the counterexample.) -/
theorem counts_partition_batch (cfg : Bool) (events : List RawItem)
    (o : BatchOutcome) (h : main cfg events = .ok o) :
    o.success_count + o.error_count = events.length := by
  induction events generalizing o with
  | nil =>
      simp only [main] at h
      cases h
      rfl
  | cons it rest ih =>
      simp only [main] at h
      cases hit : process_item cfg it with
      | error e => rw [hit] at h; cases h
      | ok o1 =>
          rw [hit] at h
          cases hrest : main cfg rest with
          | error e => rw [hrest] at h; cases h
          | ok o2 =>
              rw [hrest] at h
              cases h
              have hone : o1.success_count + o1.error_count = 1 := by
                unfold process_item at hit
                cases hu : it.utf8 with
                | none => rw [hu] at hit; cases hit
                | some raw =>
                    rw [hu] at hit
                    cases hj : it.json with
                    | none =>
                        rw [hj] at hit
                        dsimp only at hit
                        rw [send_to_dlq_eq] at hit
                        cases hit
                        rfl
                    | some d =>
                        rw [hj] at hit
                        dsimp only at hit
                        cases hvv : validate_event d with
                        | error e => rw [hvv] at hit; cases hit
                        | ok errs =>
                            rw [hvv] at hit
                            dsimp only at hit
                            by_cases hv : errs.isEmpty = false
                            · rw [if_pos hv, send_to_dlq_eq] at hit
                              cases hit
                              rfl
                            · rw [if_neg hv] at hit
                              cases he : enrich_event it.freshId it.now d with
                              | error e => rw [he] at hit; cases hit
                              | ok p =>
                                  rw [he] at hit
                                  cases hup : it.upsertOk with
                                  | false => rw [hup] at hit; simp at hit; cases hit; rfl
                                  | true => rw [hup] at hit; simp at hit; cases hit; rfl
              have := ih o2 hrest
              simp only [combineOutcome, List.length_cons]
              omega

/-- Witness for C9: a two-item batch (one malformed-JSON, one persisted)
reports counts summing to the batch length. -/
theorem counts_partition_batch_witness :
    main true
        [⟨some ['n'], none, true, true, "f1", "t1"⟩,
         ⟨some ['h'], some [("event_id", JVal.str "e2"), ("event_type", JVal.str "video_stop"),
            ("user_id", JVal.str "u2"), ("content_id", JVal.str "c2"),
            ("timestamp", JVal.str "2025-01-15T15:30:00Z")], true, true, "f2", "t2"⟩] =
      .ok ⟨1, 1, [.sent ⟨['n'], ["invalid JSON"], "t1"⟩]⟩
    ∧ (1 : Nat) + 1 =
        ([⟨some ['n'], none, true, true, "f1", "t1"⟩,
          ⟨some ['h'], some [("event_id", JVal.str "e2"), ("event_type", JVal.str "video_stop"),
             ("user_id", JVal.str "u2"), ("content_id", JVal.str "c2"),
             ("timestamp", JVal.str "2025-01-15T15:30:00Z")], true, true, "f2", "t2"⟩] :
           List RawItem).length :=
  ⟨rfl, counts_partition_batch true _ ⟨1, 1, [.sent ⟨['n'], ["invalid JSON"], "t1"⟩]⟩ rfl⟩

/-- Counterexample to C9 as stated: a single-item batch whose payload
passes validation but stores the number `1` as its timestamp makes the
loop raise an uncaught `AttributeError` inside `_enrich_event`, so no
counts are reported at all — the invocation fails instead of returning
`success_count + error_count == 1`. -/
theorem counts_partition_batch_counterexample :
    main true
        [⟨some ['j'], some [("event_id", JVal.str "e1"), ("event_type", JVal.str "video_start"),
            ("user_id", JVal.str "u1"), ("content_id", JVal.str "c1"),
            ("timestamp", JVal.num 1)], true, true, "f1", "t1"⟩] =
      .error "AttributeError" := rfl

/-! Helper lemmas for the generator claims. -/

theorem getD_mem {α : Type} (l : List α) (i : Nat) (d : α) (h : i < l.length) :
    l.getD i d ∈ l := by
  rw [List.getD_eq_getElem l d h]
  exact List.getElem_mem h

theorem build_user_pool_from_length (i : Nat) (ds : List UserDraws) :
    (build_user_pool_from i ds).length = ds.length := by
  induction ds generalizing i with
  | nil => rfl
  | cons d rest ih => simp [build_user_pool_from, ih]

theorem mem_build_user_pool_from {u : User} (i : Nat) (ds : List UserDraws)
    (h : u ∈ build_user_pool_from i ds) :
    ∃ j d, d ∈ ds ∧ u = build_user j d := by
  induction ds generalizing i with
  | nil => cases h
  | cons d rest ih =>
      rcases List.mem_cons.mp h with heq | hmem
      · exact ⟨i, d, List.mem_cons_self d rest, heq⟩
      · obtain ⟨j, d', hd', hu⟩ := ih (i + 1) hmem
        exact ⟨j, d', List.mem_cons_of_mem _ hd', hu⟩

theorem event_keys_valid : ∀ i, i < EVENT_KEYS.length →
    EVENT_KEYS.getD i "" ≠ "" ∧
    VALID_EVENT_TYPES.contains (EVENT_KEYS.getD i "") = true ∧
    EVENT_KEYS.getD i "" ∈ VALID_EVENT_TYPES := by decide

theorem device_keys_valid : ∀ i, i < DEVICE_KEYS.length →
    DEVICE_KEYS.getD i "" ≠ "" ∧
    VALID_DEVICE_TYPES.contains (DEVICE_KEYS.getD i "") = true ∧
    DEVICE_KEYS.getD i "" ∈ VALID_DEVICE_TYPES := by decide

theorem content_ids_nonempty : ∀ i, i < CONTENT_CATALOG.length →
    (CONTENT_CATALOG.getD i defaultContent).id ≠ "" := by decide

theorem roundHalfEven_bounds (a b : ℤ) (q : ℚ) (ha : (a : ℚ) ≤ q) (hb : q ≤ (b : ℚ)) :
    a ≤ roundHalfEven q ∧ roundHalfEven q ≤ b := by
  have hfa : a ≤ ⌊q⌋ := Int.le_floor.mpr ha
  have hfb : ⌊q⌋ ≤ b := by
    have h := Int.floor_le_floor hb
    simpa using h
  have hflo : (⌊q⌋ : ℚ) ≤ q := Int.floor_le q
  constructor
  · unfold roundHalfEven
    split_ifs <;> omega
  · unfold roundHalfEven
    split_ifs with h1 h2 h3
    · exact hfb
    · have hlt : ((⌊q⌋ : ℤ) : ℚ) < (b : ℚ) := by linarith
      have hzlt : ⌊q⌋ < b := by exact_mod_cast hlt
      omega
    · exact hfb
    · have h12 : q - ⌊q⌋ = 1 / 2 := by linarith
      have hlt : ((⌊q⌋ : ℤ) : ℚ) < (b : ℚ) := by linarith
      have hzlt : ⌊q⌋ < b := by exact_mod_cast hlt
      omega

theorem pyRound1_bounds (q : ℚ) (h1 : 500 ≤ q) (h2 : q ≤ 15000) :
    500 ≤ pyRound 1 q ∧ pyRound 1 q ≤ 15000 := by
  have hb := roundHalfEven_bounds 5000 150000 (q * 10 ^ 1)
    (by push_cast; linarith) (by push_cast; linarith)
  have hcast1 : ((5000 : ℤ) : ℚ) ≤ (roundHalfEven (q * 10 ^ 1) : ℚ) := by
    exact_mod_cast hb.1
  have hcast2 : (roundHalfEven (q * 10 ^ 1) : ℚ) ≤ ((150000 : ℤ) : ℚ) := by
    exact_mod_cast hb.2
  unfold pyRound
  constructor
  · rw [le_div_iff₀ (by norm_num)]
    push_cast at hcast1 ⊢
    linarith
  · rw [div_le_iff₀ (by norm_num)]
    push_cast at hcast2 ⊢
    linarith

theorem pyRound_zero (n : Nat) : pyRound n 0 = 0 := by
  unfold pyRound roundHalfEven
  norm_num

theorem pget_to_dict_event_id (e : StreamingEvent) :
    pget e.to_dict "event_id" = some (.str e.event_id) := rfl

theorem pget_to_dict_event_type (e : StreamingEvent) :
    pget e.to_dict "event_type" = some (.str e.event_type) := rfl

theorem pget_to_dict_user_id (e : StreamingEvent) :
    pget e.to_dict "user_id" = some (.str e.user_id) := rfl

theorem pget_to_dict_content_id (e : StreamingEvent) :
    pget e.to_dict "content_id" = some (.str e.content_id) := rfl

theorem pget_to_dict_timestamp (e : StreamingEvent) :
    pget e.to_dict "timestamp" = some (.str e.timestamp) := rfl

theorem pget_to_dict_device_type (e : StreamingEvent) :
    pget e.to_dict "device_type" = some (.str e.device_type) := rfl

theorem truthyGet_str (p : Payload) (k : String) (s : String)
    (h : pget p k = some (.str s)) (hs : s ≠ "") : truthyGet p k = true := by
  simp [truthyGet, h, jtruthy, beq_eq_false_iff_ne.mpr hs]

/-- C10: every event the generator produces passes the processor's
validation — serialising it to the wire, decoding it and running
`_validate_event` yields no violations, for every user pool the generator
can build and every draw the random primitives can produce. -/
theorem generated_events_validate (uds : List UserDraws) (d : GenDraws)
    (hn : d.userIdx < uds.length)
    (hud : ∀ ud ∈ uds, ud.deviceIdx < DEVICE_KEYS.length)
    (hc : d.contentIdx < CONTENT_CATALOG.length)
    (he : d.eventIdx < EVENT_KEYS.length)
    (hid : d.eventUuid ≠ "") (hnow : d.now ≠ "") :
    validate_event (StreamingEvent.to_dict (generate_event (build_user_pool uds) d)) = .ok [] := by
  rw [validate_event_eq_ok _
    (enumRaises_of_pget_str _ _ _ (pget_to_dict_event_type _))
    (enumRaises_of_pget_str _ _ _ (pget_to_dict_device_type _))]
  congr 1
  have hlen : (build_user_pool uds).length = uds.length :=
    build_user_pool_from_length 0 uds
  have humem : (build_user_pool uds).getD d.userIdx defaultUser ∈ build_user_pool uds :=
    getD_mem _ _ _ (by omega)
  obtain ⟨j, ud, hudmem, huser⟩ := mem_build_user_pool_from 0 uds humem
  have hdev := device_keys_valid ud.deviceIdx (hud ud hudmem)
  have hevk := event_keys_valid d.eventIdx he
  have hcid := content_ids_nonempty d.contentIdx hc
  have huid : ((build_user_pool uds).getD d.userIdx defaultUser).user_id =
      "U" ++ padNum 7 j := by rw [huser]; rfl
  have hdty : ((build_user_pool uds).getD d.userIdx defaultUser).device_type =
      DEVICE_KEYS.getD ud.deviceIdx "" := by rw [huser]; rfl
  refine (validate_violations_eq_nil_iff _).mpr ⟨?_, ?_, ?_⟩
  · intro f hf
    simp only [REQUIRED_FIELDS, List.mem_cons, List.not_mem_nil, or_false] at hf
    rcases hf with rfl | rfl | rfl | rfl | rfl
    · exact truthyGet_str _ _ _ (pget_to_dict_event_id _) hid
    · exact truthyGet_str _ _ _ (pget_to_dict_event_type _) hevk.1
    · refine truthyGet_str _ _ _ (pget_to_dict_user_id _) ?_
      show ((build_user_pool uds).getD d.userIdx defaultUser).user_id ≠ ""
      rw [huid]
      exact string_literal_append_ne_empty _ _ (by decide)
    · exact truthyGet_str _ _ _ (pget_to_dict_content_id _) hcid
    · exact truthyGet_str _ _ _ (pget_to_dict_timestamp _) hnow
  · intro v hv htr
    rw [pget_to_dict_event_type] at hv
    cases hv
    exact hevk.2.1
  · intro v hv htr
    rw [pget_to_dict_device_type] at hv
    cases hv
    show VALID_DEVICE_TYPES.contains
      ((build_user_pool uds).getD d.userIdx defaultUser).device_type = true
    rw [hdty]
    exact hdev.2.1

/-- Witness for C10: a concrete one-user pool and one draw vector produce
an event whose decoded wire payload validates cleanly. -/
theorem generated_events_validate_witness :
    validate_event (StreamingEvent.to_dict (generate_event
      (build_user_pool [⟨0, 1, 0, "dev-uuid", 0⟩])
      ⟨0, 0, 4, 0, 1000, 2000, 600, "sess-uuid", "ev-uuid", "2025-01-15T14:30:00Z"⟩)) = .ok [] :=
  generated_events_validate [⟨0, 1, 0, "dev-uuid", 0⟩]
    ⟨0, 0, 4, 0, 1000, 2000, 600, "sess-uuid", "ev-uuid", "2025-01-15T14:30:00Z"⟩
    (by decide) (by decide) (by decide) (by decide) (by decide) (by decide)

/-- The per-event well-formedness properties of C8 (with the buffer bounds
inclusive, as the code actually guarantees). -/
def wellFormedEvent (ev : StreamingEvent) : Prop :=
  ev.event_type ∈ VALID_EVENT_TYPES
  ∧ ev.device_type ∈ VALID_DEVICE_TYPES
  ∧ (∃ rest, ev.user_id = "U" ++ rest)
  ∧ ((∃ b, ev.buffer_duration_ms = some b) ↔ ev.event_type = "buffer_event")
  ∧ (∀ b, ev.buffer_duration_ms = some b → 500 ≤ b ∧ b ≤ 15000)
  ∧ (ev.duration_seconds ≠ 0 →
      ev.event_type = "video_stop" ∨ ev.event_type = "video_complete")
  ∧ (∃ q ∈ qualityMapGet ev.subscription_tier,
      ev.quality_settings =
        [("resolution", .str q.1), ("bitrate_kbps", .num (q.2 : ℚ)),
         ("audio_codec", .str "AAC"), ("video_codec", .str "H.265"),
         ("hdr_enabled", .boolean (strContains q.1 "HDR"))])

/-- C8 (amended): every generated event draws its event and device types
from the closed enumerations, its user id starts with the pool's `"U"`
prefix, `buffer_duration_ms` is present iff the event is buffer-kind and
then lies in the closed interval `[500, 15000]` (the rounded
`random.uniform(500, 15000)` draw can attain both endpoints, so the bounds
are inclusive rather than strict — see the counterexample),
`duration_seconds` is nonzero only for stop/complete events, and the
quality tuple comes from the tier's table
(basic → 480p; standard → 720p/1080p; premium → 1080p/4K/4K_HDR). -/
theorem generator_sampling_bounds (uds : List UserDraws) (d : GenDraws)
    (hn : d.userIdx < uds.length)
    (hud : ∀ ud ∈ uds, ud.deviceIdx < DEVICE_KEYS.length)
    (hc : d.contentIdx < CONTENT_CATALOG.length)
    (he : d.eventIdx < EVENT_KEYS.length)
    (hq : d.qualityIdx <
      (qualityMapGet ((build_user_pool uds).getD d.userIdx defaultUser).subscription_tier).length)
    (hb1 : 500 ≤ d.bufferDraw) (hb2 : d.bufferDraw ≤ 15000) :
    wellFormedEvent (generate_event (build_user_pool uds) d)
    ∧ qualityMapGet "basic" = [("480p", 2500)]
    ∧ qualityMapGet "standard" = [("720p", 5000), ("1080p", 8000)]
    ∧ qualityMapGet "premium" = [("1080p", 8000), ("4K", 16000), ("4K_HDR", 20000)] := by
  have hlen : (build_user_pool uds).length = uds.length :=
    build_user_pool_from_length 0 uds
  have humem : (build_user_pool uds).getD d.userIdx defaultUser ∈ build_user_pool uds :=
    getD_mem _ _ _ (by omega)
  obtain ⟨j, ud, hudmem, huser⟩ := mem_build_user_pool_from 0 uds humem
  have hdev := device_keys_valid ud.deviceIdx (hud ud hudmem)
  have hevk := event_keys_valid d.eventIdx he
  refine ⟨⟨hevk.2.2, ?_, ?_, ?_, ?_, ?_, ?_⟩, rfl, rfl, rfl⟩
  · show ((build_user_pool uds).getD d.userIdx defaultUser).device_type ∈ VALID_DEVICE_TYPES
    rw [huser]
    exact hdev.2.2
  · refine ⟨padNum 7 j, ?_⟩
    show ((build_user_pool uds).getD d.userIdx defaultUser).user_id = "U" ++ padNum 7 j
    rw [huser]
    rfl
  · constructor
    · rintro ⟨b, hb⟩
      by_cases het : EVENT_KEYS.getD d.eventIdx "" = "buffer_event"
      · exact het
      · exfalso
        have hcond : ¬ ((EVENT_KEYS.getD d.eventIdx "" == "buffer_event") = true) := by
          simp only [beq_iff_eq]
          exact het
        have hbuf : (generate_event (build_user_pool uds) d).buffer_duration_ms = none := by
          show (if (EVENT_KEYS.getD d.eventIdx "" == "buffer_event")
              then some (pyRound 1 d.bufferDraw) else none) = none
          rw [if_neg hcond]
        rw [hbuf] at hb
        cases hb
    · intro het
      have het' : EVENT_KEYS.getD d.eventIdx "" = "buffer_event" := het
      have hcond : (EVENT_KEYS.getD d.eventIdx "" == "buffer_event") = true := by
        simp only [beq_iff_eq]
        exact het'
      refine ⟨pyRound 1 d.bufferDraw, ?_⟩
      show (if (EVENT_KEYS.getD d.eventIdx "" == "buffer_event")
          then some (pyRound 1 d.bufferDraw) else none) = some (pyRound 1 d.bufferDraw)
      rw [if_pos hcond]
  · intro b hb
    by_cases het : EVENT_KEYS.getD d.eventIdx "" = "buffer_event"
    · have hcond : (EVENT_KEYS.getD d.eventIdx "" == "buffer_event") = true := by
        simp only [beq_iff_eq]
        exact het
      have hb' : (if (EVENT_KEYS.getD d.eventIdx "" == "buffer_event")
          then some (pyRound 1 d.bufferDraw) else none) = some b := hb
      rw [if_pos hcond, Option.some.injEq] at hb'
      rw [← hb']
      exact pyRound1_bounds d.bufferDraw hb1 hb2
    · have hcond : ¬ ((EVENT_KEYS.getD d.eventIdx "" == "buffer_event") = true) := by
        simp only [beq_iff_eq]
        exact het
      have hb' : (if (EVENT_KEYS.getD d.eventIdx "" == "buffer_event")
          then some (pyRound 1 d.bufferDraw) else none) = some b := hb
      rw [if_neg hcond] at hb'
      cases hb'
  · intro hne
    by_contra hcon
    push_neg at hcon
    have hs : EVENT_KEYS.getD d.eventIdx "" ≠ "video_stop" := hcon.1
    have hc2 : EVENT_KEYS.getD d.eventIdx "" ≠ "video_complete" := hcon.2
    apply hne
    show pyRound 2 (if (EVENT_KEYS.getD d.eventIdx "" == "video_stop"
        || EVENT_KEYS.getD d.eventIdx "" == "video_complete")
        then d.durationDraw else 0) = 0
    rw [beq_eq_false_iff_ne.mpr hs, beq_eq_false_iff_ne.mpr hc2]
    simpa using pyRound_zero 2
  · refine ⟨(qualityMapGet ((build_user_pool uds).getD d.userIdx
        defaultUser).subscription_tier).getD d.qualityIdx ("", 0),
      getD_mem _ _ _ hq, rfl⟩

/-- Witness for C8 at a concrete pool and draw vector (a buffer event with
draw 600 for a basic-tier user). -/
theorem generator_sampling_bounds_witness :
    wellFormedEvent (generate_event (build_user_pool [⟨0, 1, 0, "dev-uuid", 0⟩])
      ⟨0, 0, 4, 0, 1000, 2000, 600, "sess-uuid", "ev-uuid", "2025-01-15T14:30:00Z"⟩)
    ∧ qualityMapGet "basic" = [("480p", 2500)]
    ∧ qualityMapGet "standard" = [("720p", 5000), ("1080p", 8000)]
    ∧ qualityMapGet "premium" = [("1080p", 8000), ("4K", 16000), ("4K_HDR", 20000)] :=
  generator_sampling_bounds [⟨0, 1, 0, "dev-uuid", 0⟩]
    ⟨0, 0, 4, 0, 1000, 2000, 600, "sess-uuid", "ev-uuid", "2025-01-15T14:30:00Z"⟩
    (by decide) (by decide) (by decide) (by decide) (by decide)
    (by norm_num) (by norm_num)

/-- Counterexample to C8 as stated: `random.uniform(500, 15000)` can
return exactly `500.0` (`random.random()` can return `0.0`), in which case
the generated buffer event carries `buffer_duration_ms = 500`, which is
not *strictly* between 500 and 15000. -/
theorem generator_sampling_bounds_counterexample :
    (generate_event (build_user_pool [⟨0, 1, 0, "dev-uuid", 0⟩])
      ⟨0, 0, 4, 0, 1000, 2000, 500, "sess-uuid", "ev-uuid",
        "2025-01-15T14:30:00Z"⟩).buffer_duration_ms = some 500
    ∧ ¬ ((500 : ℚ) < 500) := by
  constructor
  · show (if (EVENT_KEYS.getD 4 "" == "buffer_event")
        then some (pyRound 1 500) else none) = some 500
    have h : pyRound 1 (500 : ℚ) = 500 := by
      unfold pyRound roundHalfEven
      norm_num
    rw [h]
    rfl
  · exact lt_irrefl 500
